import Mathlib

/-!
Formal model of the core booking engine of the nexus-backend event-ticketing
service: seat locking (Redis fast path + relational persistence), booking
creation/confirmation/cancellation, the expiry sweeper, the payment webhook
and the token blacklist, together with the invariants the specification
states about them.

Modelling conventions:
* The relational store and the KV store are immutable Lean values threaded
  through the operations; an operation returns its result together with the
  final state of both stores.
* Timestamps are natural numbers (seconds).  `CURRENT_TIMESTAMP` / `new Date()`
  is an explicit `now` parameter.
* Row ids generated by the database (`RETURNING id`) are explicit parameters
  (`newId`, `newBookingId`); theorems that need them fresh say so.
* Decimal money amounts are modelled as integers (the claims under study never
  depend on sub-unit rounding).
* Fallible operations return `Except String α`; the strings are the source's
  error messages.
-/

namespace Nexus

/-! ## Character / string model of `trim()` and `toUpperCase()`

The source normalises seat labels with `seatLabel.trim().toUpperCase()` and
validates them with the regular expression `^[A-Z0-9]+$` plus a length bound.
We model strings through their character lists so that the normalisation is
fully analysable.
-/

/-- JS `toUpperCase` restricted to the ASCII range (the only range the seat
label validation can accept). -/
def upChar (c : Char) : Char :=
  if 97 ≤ c.toNat ∧ c.toNat ≤ 122 then Char.ofNat (c.toNat - 32) else c

/-- Whitespace removed by `trim()` (ASCII whitespace suffices for the model). -/
def isWS (c : Char) : Bool :=
  decide (c.toNat = 32 ∨ c.toNat = 9 ∨ c.toNat = 10 ∨ c.toNat = 13)

/-- A character allowed by the seat-label pattern `[A-Z0-9]`. -/
def isSeatLabelChar (c : Char) : Bool :=
  decide ((65 ≤ c.toNat ∧ c.toNat ≤ 90) ∨ (48 ≤ c.toNat ∧ c.toNat ≤ 57))

/-- `trim()` on a character list: drop whitespace from both ends. -/
def listTrim (l : List Char) : List Char :=
  ((l.dropWhile isWS).reverse.dropWhile isWS).reverse

/-- `s.trim()`. -/
def trimString (s : String) : String := String.mk (listTrim s.data)

/-- `s.toUpperCase()`. -/
def upperString (s : String) : String := String.mk (s.data.map upChar)

/-- `s.trim().toUpperCase()` — the label normalisation used throughout the
seat-lock code. -/
def normalizeLabel (s : String) : String := upperString (trimString s)

/-- The test `/^[A-Z0-9]+$/.test(label)` from `acquireSeatLock`. -/
def labelMatchesPattern (s : String) : Bool :=
  !s.data.isEmpty && s.data.all isSeatLabelChar

/-! ## Data model (rows of the relational store) -/

/-- Status column of a `seats` row.  A row exists only while a seat is
reserved (virtual-seats model); there is no `available` status. -/
inductive SeatStatus
  | locked
  | booked
deriving DecidableEq, Repr

/-- A row of the `seats` table.  (`booked_at` is written by the source but
never read by any modelled operation and is omitted.) -/
structure SeatRow where
  id : Nat
  eventId : Nat
  seatTypeId : Nat
  seatLabel : String
  userId : Nat
  status : SeatStatus
  lockedAt : Nat
  expiresAt : Nat
deriving DecidableEq, Repr

/-- A row of the `event_seat_types` table (fields the core reads). -/
structure SeatTypeRow where
  id : Nat
  eventId : Nat
  price : Int
  quantity : Int
  available : Int
deriving DecidableEq, Repr

/-- A row of the `events` table (fields the core reads).  `status` is the
source's string enum (`draft` / `published` / `cancelled`). -/
structure EventRow where
  id : Nat
  status : String
  startDate : Nat
deriving DecidableEq, Repr

/-- A row of the `bookings` table.  `status ∈ {pending, confirmed, cancelled}`,
`paymentStatus ∈ {pending, completed, failed, refunded}`; the `payment_id`
column holds the provider order id between order creation and confirmation and
the payment id afterwards.  Timestamp columns that no modelled operation reads
(`booked_at`, `confirmed_at`, `cancelled_at`, `cancellation_reason`) are
omitted. -/
structure BookingRow where
  id : Nat
  reference : String
  eventId : Nat
  userId : Nat
  totalAmount : Int
  status : String
  paymentStatus : String
  paymentId : Option String
  paymentGateway : Option String
  expiresAt : Nat
deriving DecidableEq, Repr

/-- A row of the `booking_seats` link table. -/
structure BookingSeatRow where
  bookingId : Nat
  seatId : Nat
  pricePaid : Int
deriving DecidableEq, Repr

/-- A row of the `idempotency_keys` table (used by booking cancellation). -/
structure IdemRow where
  key : String
  operationType : String
  resourceId : Nat
  userId : Nat
  status : String
  responseData : Option String
  expiresAt : Nat
deriving DecidableEq, Repr

/-- The relational store. -/
structure DB where
  events : List EventRow
  seatTypes : List SeatTypeRow
  seats : List SeatRow
  bookings : List BookingRow
  bookingSeats : List BookingSeatRow
  idemKeys : List IdemRow
deriving DecidableEq, Repr

/-- Value stored under a `seat_lock:{event}:{type}:{label}` KV key. -/
structure SeatLockData where
  userId : Nat
  lockedAt : Nat
  expiresAt : Nat
deriving DecidableEq, Repr

/-- The KV store (Redis), restricted to the seat-lock keyspace the modelled
operations touch.  Keys are the `(eventId, seatTypeId, label)` triples of
`seat_lock:{event}:{type}:{label}`. -/
structure KV where
  seatLocks : List ((Nat × Nat × String) × SeatLockData)
deriving DecidableEq, Repr

/-- The combined state of the two stores. -/
structure Sys where
  db : DB
  kv : KV
deriving DecidableEq, Repr

/-- Redis `GET` on a seat-lock key. -/
def kvGetLock (kv : KV) (k : Nat × Nat × String) : Option SeatLockData :=
  (kv.seatLocks.find? (fun e => e.1 == k)).map (fun e => e.2)

/-- Redis `SET` on a seat-lock key (the caller has established absence). -/
def kvSetLock (kv : KV) (k : Nat × Nat × String) (d : SeatLockData) : KV :=
  { kv with seatLocks := (k, d) :: kv.seatLocks }

/-- Redis `DEL` on a seat-lock key. -/
def kvDelLock (kv : KV) (k : Nat × Nat × String) : KV :=
  { kv with seatLocks := kv.seatLocks.filter (fun e => !(e.1 == k)) }

/-! ## Seat-lock cache service (`src/lib/cache/seatLockCache.ts`) -/

/-- `SEAT_LOCK_TTL` — 600 seconds. -/
def SEAT_LOCK_TTL : Nat := 600

/-- `acquireSeatLock` — the Redis fast path of seat locking.  Normalises and
validates the label, then performs `SET key value EX 600 NX`.  Returns
`ok (some lock)` when the conditional set created the key, `ok none` when the
key already existed (conflict) and `error _` when validation fails (the
source wraps every thrown message in `Failed to acquire seat lock: ...`).
Validation happens before the conditional set, so on every non-`ok` outcome
the stores are untouched. -/
def acquireSeatLock (s : Sys) (eventId seatTypeId : Nat) (seatLabel : String)
    (userId now : Nat) : Except String (Option SeatLockData) × Sys :=
  let normalized := normalizeLabel seatLabel
  if !labelMatchesPattern normalized then
    (Except.error "Failed to acquire seat lock: Invalid seat label format. Only alphanumeric characters allowed.", s)
  else if 20 < normalized.data.length then
    (Except.error "Failed to acquire seat lock: Seat label too long (max 20 characters)", s)
  else
    let key := (eventId, seatTypeId, normalized)
    match kvGetLock s.kv key with
    | some _ => (Except.ok none, s)
    | none =>
        let d : SeatLockData :=
          { userId := userId, lockedAt := now, expiresAt := now + SEAT_LOCK_TTL }
        (Except.ok (some d), { s with kv := kvSetLock s.kv key d })

/-- Does a `seats` row match `releaseSeatLock`'s DELETE condition
(`event_id, event_seat_type_id, seat_label, user_id, status = 'locked'`)? -/
def releaseHit (eventId seatTypeId : Nat) (label : String) (userId : Nat)
    (r : SeatRow) : Bool :=
  r.eventId == eventId && r.seatTypeId == seatTypeId && r.seatLabel == label &&
    r.userId == userId && r.status == SeatStatus.locked

/-- The guarded `+1` availability restore performed by `releaseSeatLock`
(`UPDATE event_seat_types SET available_quantity = available_quantity + 1
WHERE id = ? AND available_quantity < quantity`). -/
def restoreOneAvailability (types : List SeatTypeRow) (seatTypeId : Nat) :
    List SeatTypeRow :=
  types.map (fun st =>
    if st.id == seatTypeId && decide (st.available < st.quantity) then
      { st with available := st.available + 1 }
    else st)

/-- `releaseSeatLock`.  Verifies KV ownership, deletes the KV key, deletes the
matching `locked` DB row(s) for this user and, if a row was deleted, restores
one unit of availability.  Returns `false` only when the KV entry exists and
belongs to a different user; in every other case it returns `true`, whether or
not any lock actually existed. -/
def releaseSeatLock (s : Sys) (eventId seatTypeId : Nat) (seatLabel : String)
    (userId : Nat) : Bool × Sys :=
  let normalized := normalizeLabel seatLabel
  let key := (eventId, seatTypeId, normalized)
  let owned :=
    match kvGetLock s.kv key with
    | some d => d.userId == userId
    | none => true
  if !owned then (false, s)
  else
    let kv1 := kvDelLock s.kv key
    let hit := releaseHit eventId seatTypeId normalized userId
    let deleted := s.db.seats.filter hit
    let remaining := s.db.seats.filter (fun r => !hit r)
    let types1 :=
      if 0 < deleted.length then restoreOneAvailability s.db.seatTypes seatTypeId
      else s.db.seatTypes
    (true, { db := { s.db with seats := remaining, seatTypes := types1 }, kv := kv1 })

/-- Is a `seats` row an expired lock in the sweeper's sense
(`status = 'locked' AND expires_at <= now`; `user_id IS NOT NULL` always holds
in the model since every insert sets it)? -/
def expiredLockP (now : Nat) (r : SeatRow) : Bool :=
  r.status == SeatStatus.locked && decide (r.expiresAt ≤ now)

/-- The grouped availability restore used by the sweeper and by cancellation:
`UPDATE event_seat_types SET available_quantity =
LEAST(available_quantity + k, quantity) WHERE id = ?` for every seat type with
`k > 0` deleted rows. -/
def restoreAvailability (types : List SeatTypeRow) (counts : Nat → Nat) :
    List SeatTypeRow :=
  types.map (fun st =>
    if 0 < counts st.id then
      { st with available := min (st.available + (counts st.id : Int)) st.quantity }
    else st)

/-- `cleanupExpiredSeatLocks` — the expiry sweeper.  Deletes every expired
locked row, restores each seat type's availability by the number of its
deleted rows clamped to `quantity`, and removes the corresponding KV keys.
Returns `(releasedCount, restoredSeats)`. -/
def cleanupExpiredSeatLocks (s : Sys) (now : Nat) : (Nat × Nat) × Sys :=
  let expired := s.db.seats.filter (expiredLockP now)
  if expired.isEmpty then ((0, 0), s)
  else
    let remaining := s.db.seats.filter (fun r => !expiredLockP now r)
    let counts : Nat → Nat := fun tid => expired.countP (fun r => r.seatTypeId == tid)
    let types1 := restoreAvailability s.db.seatTypes counts
    let kv1 : KV :=
      { seatLocks := s.kv.seatLocks.filter (fun e =>
          !(expired.any (fun r => ((r.eventId, r.seatTypeId, r.seatLabel) : Nat × Nat × String) == e.1))) }
    ((expired.length, expired.length),
     { db := { s.db with seats := remaining, seatTypes := types1 }, kv := kv1 })

/-! ## Seat service (`src/seats/service.ts`) -/

/-- The conflict message thrown when a seat is already taken. -/
def conflictMsg (label : String) : String :=
  "Seat " ++ label ++ " is already taken. Please select another seat."

/-- The body of the relational transaction inside `lockSeat`
(`db.tx(async (t) => ...)`), called after the Redis conditional set succeeded.
`s` is the state at transaction start.  On every throw path the transaction
is rolled back — the relational store reverts to `s.db` — while the
compensating `releaseSeatLock` (which acts on the KV store and on a separate
DB connection, outside the transaction) keeps its effects; the model therefore
applies `releaseSeatLock` to the rolled-back state on those paths.  The
`ON CONFLICT (event_seat_type_id, seat_label) DO NOTHING` insert relies on the
seats unique constraint; the migrations are not part of the sources, so the
constraint is modelled from the spec (`(seat_type_id, seat_label)` unique):
the insert returns no row exactly when some row with the same
`(event_seat_type_id, seat_label)` already exists. -/
def lockSeatTx (s : Sys) (eventId seatTypeId userId : Nat)
    (trimmedLabel : String) (now newId : Nat) : Except String SeatRow × Sys :=
  let liveConflict := s.db.seats.any (fun r =>
    r.seatTypeId == seatTypeId && r.seatLabel == trimmedLabel &&
      ((r.status == SeatStatus.locked && decide (now < r.expiresAt)) ||
        r.status == SeatStatus.booked))
  if liveConflict then
    let rel := releaseSeatLock s eventId seatTypeId trimmedLabel userId
    (Except.error (conflictMsg trimmedLabel), rel.2)
  else
    let keyTaken := s.db.seats.any (fun r =>
      r.seatTypeId == seatTypeId && r.seatLabel == trimmedLabel)
    if keyTaken then
      let rel := releaseSeatLock s eventId seatTypeId trimmedLabel userId
      (Except.error (conflictMsg trimmedLabel), rel.2)
    else
      let row : SeatRow :=
        { id := newId, eventId := eventId, seatTypeId := seatTypeId,
          seatLabel := trimmedLabel, userId := userId,
          status := SeatStatus.locked, lockedAt := now,
          expiresAt := now + SEAT_LOCK_TTL }
      let canDec := s.db.seatTypes.any (fun st =>
        st.id == seatTypeId && decide (0 < st.available))
      if !canDec then
        let rel := releaseSeatLock s eventId seatTypeId trimmedLabel userId
        (Except.error "No seats available for this seat type", rel.2)
      else
        let types1 := s.db.seatTypes.map (fun st =>
          if st.id == seatTypeId && decide (0 < st.available) then
            { st with available := st.available - 1 }
          else st)
        (Except.ok row,
         { s with db := { s.db with seats := row :: s.db.seats, seatTypes := types1 } })

/-- `lockSeat` — the Acquire operation.  Validates the label, checks the event
and the seat type, takes the Redis lock and runs the persistence transaction.
The source's outer `catch` releases the Redis lock again when the transaction
threw; that second release is a no-op because every throw path of the
transaction already released it, so the model performs the release once, on
the throw paths of `lockSeatTx`. -/
def lockSeat (s : Sys) (eventId seatTypeId userId : Nat) (seatLabel : String)
    (now newId : Nat) : Except String SeatRow × Sys :=
  if (trimString seatLabel).data.length == 0 then
    (Except.error "Seat label is required", s)
  else
    let trimmedLabel := normalizeLabel seatLabel
    match s.db.events.find? (fun e => e.id == eventId) with
    | none => (Except.error "Event not found", s)
    | some e =>
      if !(e.status == "published") then
        (Except.error "Event is not available for booking", s)
      else
        match s.db.seatTypes.find? (fun st => st.id == seatTypeId && st.eventId == eventId) with
        | none => (Except.error "Seat type not found", s)
        | some st =>
          if st.available ≤ 0 then
            (Except.error "No seats available for this seat type", s)
          else
            match acquireSeatLock s eventId seatTypeId trimmedLabel userId now with
            | (Except.error msg, s1) => (Except.error msg, s1)
            | (Except.ok none, s1) => (Except.error (conflictMsg trimmedLabel), s1)
            | (Except.ok (some _), s1) =>
                lockSeatTx s1 eventId seatTypeId userId trimmedLabel now newId

/-! ## Booking service (`src/bookings/service.ts`) -/

/-- One element of the `seat_details` input of `createBooking`. -/
structure SeatDetail where
  seatLabel : String
  seatTypeId : Nat
deriving DecidableEq, Repr

/-- The part of `createBooking`'s return value the model keeps. -/
structure BookingResult where
  bookingId : Nat
  reference : String
  totalAmount : Int
  seatIds : List Nat
deriving DecidableEq, Repr

/-- The booking-reference retry loop of `createBooking`: up to five reference
candidates are checked against existing bookings (the loop gives up after five
collisions without checking a sixth candidate).  `refs` is the stream of
candidates produced by `generateBookingReference` (a timestamp plus random
suffix, an external input to the model). -/
def pickBookingReference (refs : List String) (bookings : List BookingRow) :
    Option String :=
  (refs.take 5).find? (fun r => !(bookings.any (fun b => b.reference == r)))

/-- The `ON CONFLICT (booking_id, seat_id) DO NOTHING` insertion loop of
`createBooking` step 8: each seat is linked to the new booking unless the link
already exists. -/
def insertBookingSeats (bid : Nat) (items : List (SeatRow × SeatTypeRow))
    (acc : List BookingSeatRow) : List BookingSeatRow :=
  match items with
  | [] => acc
  | x :: rest =>
      let acc1 :=
        if acc.any (fun l => l.bookingId == bid && l.seatId == x.1.id) then acc
        else { bookingId := bid, seatId := x.1.id, pricePaid := x.2.price } :: acc
      insertBookingSeats bid rest acc1

/-- The `SELECT ... FOR UPDATE` join of `createBooking` step 1: the user's
fresh locked seats among the requested labels/types, joined (INNER) with their
seat-type rows. -/
def lockedSeatsQuery (db : DB) (eventId userId : Nat) (seatLabels : List String)
    (seatTypeIds : List Nat) (now : Nat) : List (SeatRow × SeatTypeRow) :=
  db.seats.filterMap (fun r =>
    if r.eventId == eventId && r.userId == userId &&
        r.status == SeatStatus.locked && decide (now < r.expiresAt) &&
        seatLabels.contains r.seatLabel && seatTypeIds.contains r.seatTypeId then
      (db.seatTypes.find? (fun st => st.id == r.seatTypeId)).map (fun st => (r, st))
    else none)

/-- `createBooking` — turn a set of held locks into a `pending` booking.
All steps after the event checks run in one relational transaction: on any
throw the transaction rolls back and the store is unchanged. -/
def createBooking (s : Sys) (eventId userId : Nat) (seatDetails : List SeatDetail)
    (now newBookingId : Nat) (refs : List String) :
    Except String BookingResult × Sys :=
  if eventId == 0 || userId == 0 || seatDetails.isEmpty then
    (Except.error "Event ID, User ID, and at least one seat are required", s)
  else
    match s.db.events.find? (fun e => e.id == eventId) with
    | none => (Except.error "Event not found", s)
    | some e =>
      if !(e.status == "published") then
        (Except.error "Event is not available for booking", s)
      else if decide (e.startDate < now) then
        (Except.error "Event has already started. Booking is closed.", s)
      else
        let seatLabels := seatDetails.map (fun d => normalizeLabel d.seatLabel)
        let seatTypeIds := seatDetails.map (fun d => d.seatTypeId)
        let lockedSeats := lockedSeatsQuery s.db eventId userId seatLabels seatTypeIds now
        if !(lockedSeats.length == seatDetails.length) then
          (Except.error "One or more seats are not locked by you, have expired, or do not exist. Please lock the seats again.", s)
        else
          let seatIds := lockedSeats.map (fun x => x.1.id)
          let existingLinked := s.db.bookingSeats.filter (fun l =>
            seatIds.contains l.seatId &&
              s.db.bookings.any (fun b => b.id == l.bookingId && !(b.status == "cancelled")))
          if !existingLinked.isEmpty then
            (Except.error "One or more seats are already linked to another booking. Please lock the seats again.", s)
          else if !(seatDetails.all (fun d => lockedSeats.any (fun x =>
              x.1.seatLabel == normalizeLabel d.seatLabel && x.1.seatTypeId == d.seatTypeId))) then
            (Except.error "Seat does not match seat type", s)
          else
            let totalAmount := (lockedSeats.map (fun x => x.2.price)).sum
            match pickBookingReference refs s.db.bookings with
            | none =>
                (Except.error "Failed to generate unique booking reference. Please try again.", s)
            | some bookingRef =>
                let booking : BookingRow :=
                  { id := newBookingId, reference := bookingRef, eventId := eventId,
                    userId := userId, totalAmount := totalAmount,
                    status := "pending", paymentStatus := "pending",
                    paymentId := none, paymentGateway := none,
                    expiresAt := now + 900 }
                let links1 := insertBookingSeats newBookingId lockedSeats s.db.bookingSeats
                if !(links1.countP (fun l => l.bookingId == newBookingId) == lockedSeats.length) then
                  (Except.error "Failed to link all seats to booking. Please try again.", s)
                else
                  (Except.ok
                    { bookingId := newBookingId, reference := bookingRef,
                      totalAmount := totalAmount, seatIds := seatIds },
                   { s with db := { s.db with
                       bookings := booking :: s.db.bookings,
                       bookingSeats := links1 } })

/-- The part of `confirmBooking`'s return value the model keeps. -/
structure ConfirmResult where
  bookingId : Nat
  reference : String
  status : String
  paymentStatus : String
  paymentId : Option String
  bookedSeatIds : List Nat
deriving DecidableEq, Repr

/-- The `booking_seats ⋈ seats ⋈ event_seat_types` join of `confirmBooking`
step 4: every link of the booking whose seat row is still `locked`, with its
seat-type row.  Links whose seat is in any other status are simply absent from
the result. -/
def confirmLockedSeatsQuery (db : DB) (bookingId : Nat) :
    List (BookingSeatRow × SeatRow × SeatTypeRow) :=
  db.bookingSeats.filterMap (fun l =>
    if l.bookingId == bookingId then
      match db.seats.find? (fun r => r.id == l.seatId && r.status == SeatStatus.locked) with
      | some r => (db.seatTypes.find? (fun st => st.id == r.seatTypeId)).map
          (fun st => (l, r, st))
      | none => none
    else none)

/-- `confirmBooking` — transition a pending booking (and its still-locked
seats) to `confirmed`/`booked` after payment.  Runs in one transaction: every
throw rolls the store back.  Note that a booking that is already
`confirmed`+`completed` is rejected with an error (step 2), and that step 4
selects only the linked seats still in status `locked`, erroring only when
that selection is empty. -/
def confirmBooking (s : Sys) (bookingId : Nat) (paymentId gateway : String)
    (now : Nat) : Except String ConfirmResult × Sys :=
  if bookingId == 0 || paymentId == "" then
    (Except.error "Booking ID and Payment ID are required", s)
  else
    match s.db.bookings.find? (fun b => b.id == bookingId) with
    | none => (Except.error "Booking not found", s)
    | some b =>
      if b.status == "confirmed" && b.paymentStatus == "completed" then
        (Except.error "Booking is already confirmed", s)
      else if decide (b.expiresAt < now) then
        (Except.error "Booking has expired. Please create a new booking.", s)
      else
        let lockedSeats := confirmLockedSeatsQuery s.db bookingId
        if lockedSeats.isEmpty then
          (Except.error "No locked seats found for this booking", s)
        else if !(b.status == "pending" && b.paymentStatus == "pending") then
          (Except.error "Booking could not be confirmed. It may have already been confirmed or cancelled.", s)
        else
          match lockedSeats.find? (fun x => !(x.2.1.eventId == b.eventId)) with
          | some x =>
              (Except.error ("Seat " ++ x.2.1.seatLabel ++ " could not be booked. It may have been booked by another transaction."), s)
          | none =>
              let seatIds := lockedSeats.map (fun x => x.2.1.id)
              let bookings1 := s.db.bookings.map (fun bk =>
                if bk.id == bookingId && bk.status == "pending" && bk.paymentStatus == "pending" then
                  { bk with
                    status := "confirmed", paymentStatus := "completed",
                    paymentId := some paymentId, paymentGateway := some gateway }
                else bk)
              let seats1 := s.db.seats.map (fun r =>
                if seatIds.contains r.id && r.status == SeatStatus.locked then
                  { r with status := SeatStatus.booked }
                else r)
              (Except.ok
                { bookingId := bookingId, reference := b.reference,
                  status := "confirmed", paymentStatus := "completed",
                  paymentId := some paymentId, bookedSeatIds := seatIds },
               { s with db := { s.db with bookings := bookings1, seats := seats1 } })

/-- The part of `cancelBooking`'s return value the model keeps. -/
structure CancelResult where
  message : String
  alreadyCancelled : Bool
  idempotent : Bool
deriving DecidableEq, Repr

/-- The catch block of `cancelBooking`: after the transaction rolled back,
mark any committed idempotency record for this key/operation/resource as
`failed`. -/
def markIdemFailed (db : DB) (idemKey : Option String) (bookingId : Nat) : DB :=
  match idemKey with
  | none => db
  | some k =>
      { db with idemKeys := db.idemKeys.map (fun r =>
          if r.key == k && r.operationType == "cancel_booking" && r.resourceId == bookingId then
            { r with status := "failed" }
          else r) }

/-- Mark the idempotency record with key `k` completed, storing the response. -/
def completeIdemKey (rows : List IdemRow) (k resp : String) : List IdemRow :=
  rows.map (fun r => if r.key == k then { r with status := "completed", responseData := some resp } else r)

/-- `cancelBooking` — cancel a pending booking, delete its still-locked seats
and restore availability (clamped by `LEAST` to `quantity`), with optional
idempotency-key deduplication.  Transactional: on a throw every transaction
write is rolled back and the catch block marks the idempotency record (if one
was committed earlier) as failed. -/
def cancelBooking (s : Sys) (bookingId userId : Nat) (reason : Option String)
    (idemKey : Option String) (now : Nat) : Except String CancelResult × Sys :=
  let pre : Option IdemRow :=
    match idemKey with
    | some k => s.db.idemKeys.find? (fun r =>
        r.key == k && r.operationType == "cancel_booking" &&
          r.resourceId == bookingId && r.userId == userId && decide (now < r.expiresAt))
    | none => none
  match pre with
  | some r =>
    if r.status == "completed" then
      (Except.ok { message := "Booking cancelled successfully (idempotent retry)",
                   alreadyCancelled := false, idempotent := true }, s)
    else if r.status == "pending" then
      (Except.error "A cancellation request for this booking is already in progress. Please wait.", s)
    else cancelBookingTx s bookingId userId reason idemKey now
  | none => cancelBookingTx s bookingId userId reason idemKey now
where
  /-- The transaction body (and its rollback/catch semantics). -/
  cancelBookingTx (s : Sys) (bookingId userId : Nat) (reason : Option String)
      (idemKey : Option String) (now : Nat) : Except String CancelResult × Sys :=
    let fail := fun (msg : String) =>
      (Except.error msg, { s with db := markIdemFailed s.db idemKey bookingId })
    let idemConflict :=
      match idemKey with
      | some k => s.db.idemKeys.any (fun r => r.key == k)
      | none => false
    if idemConflict then
      fail "A cancellation request with this idempotency key is already in progress."
    else
      let idem1 : List IdemRow :=
        match idemKey with
        | some k =>
            { key := k, operationType := "cancel_booking", resourceId := bookingId,
              userId := userId, status := "pending", responseData := none,
              expiresAt := now + 86400 } :: s.db.idemKeys
        | none => s.db.idemKeys
      match s.db.bookings.find? (fun b => b.id == bookingId) with
      | none => fail "Booking not found"
      | some b =>
        if !(b.userId == userId) then
          fail "You are not authorized to cancel this booking"
        else if b.status == "confirmed" && b.paymentStatus == "completed" then
          fail "Cannot cancel confirmed booking. Please request a refund."
        else if b.status == "cancelled" then
          let idem2 :=
            match idemKey with
            | some k => completeIdemKey idem1 k "already_cancelled"
            | none => idem1
          (Except.ok { message := "Booking is already cancelled",
                       alreadyCancelled := true, idempotent := false },
           { s with db := { s.db with idemKeys := idem2 } })
        else
          let lockedIds := (s.db.bookingSeats.filterMap (fun l =>
            if l.bookingId == bookingId then
              (s.db.seats.find? (fun r => r.id == l.seatId && r.status == SeatStatus.locked)).map
                (fun r => r.id)
            else none))
          let delHit := fun (r : SeatRow) =>
            lockedIds.contains r.id && r.status == SeatStatus.locked
          let deleted := s.db.seats.filter delHit
          let remaining := s.db.seats.filter (fun r => !delHit r)
          let counts : Nat → Nat := fun tid => deleted.countP (fun r => r.seatTypeId == tid)
          let types1 := restoreAvailability s.db.seatTypes counts
          let bookings1 := s.db.bookings.map (fun bk =>
            if bk.id == bookingId && !(bk.status == "cancelled") then
              { bk with status := "cancelled", paymentStatus := "refunded" }
            else bk)
          let idem2 :=
            match idemKey with
            | some k => completeIdemKey idem1 k "cancelled"
            | none => idem1
          (Except.ok { message := "Booking cancelled successfully",
                       alreadyCancelled := false, idempotent := false },
           { s with db := { s.db with
               bookings := bookings1, seats := remaining,
               seatTypes := types1, idemKeys := idem2 } })

/-! ## Payment intake (`src/payments/service.ts`, `src/payments/controller.ts`) -/

/-- The payment entity carried by a Razorpay webhook.  The amount is modelled
in whole currency units: the source compares floats within a 0.01 tolerance,
which on amounts that are whole-unit integers is exact equality. -/
structure PaymentEntity where
  orderId : String
  paymentId : String
  amount : Int
  status : String
deriving DecidableEq, Repr

/-- A parsed webhook payload. -/
structure WebhookData where
  event : String
  payment : PaymentEntity
deriving DecidableEq, Repr

/-- The part of `handleRazorpayWebhook`'s return value the model keeps. -/
structure WebhookResult where
  success : Bool
  message : String
  idempotent : Bool
deriving DecidableEq, Repr

/-- `handleRazorpayWebhook`.  `sigOk` is the outcome of
`verifyWebhookSignature` (HMAC-SHA256 over the raw body compared in constant
time — the cryptography itself is outside the model).  Every thrown message is
wrapped in `Webhook processing failed: ...` by the function's catch block.
Note the idempotence short-circuit: a booking found by order id that is
already `confirmed`+`completed` returns success without calling
`confirmBooking`. -/
def handleRazorpayWebhook (s : Sys) (w : WebhookData) (sigOk : Bool)
    (now : Nat) : Except String WebhookResult × Sys :=
  if !sigOk then
    (Except.error "Webhook processing failed: Invalid webhook signature", s)
  else if w.event == "payment.captured" || w.event == "payment.authorized" then
    if !(w.payment.status == "captured" || w.payment.status == "authorized") then
      (Except.error ("Webhook processing failed: Payment status is " ++ w.payment.status ++ ", expected captured or authorized"), s)
    else
      match s.db.bookings.find? (fun b =>
          b.paymentId == some w.payment.orderId && b.paymentGateway == some "razorpay") with
      | none =>
          (Except.error ("Webhook processing failed: Booking not found for order_id: " ++ w.payment.orderId), s)
      | some b =>
        if !(b.totalAmount == w.payment.amount) then
          (Except.error "Webhook processing failed: Amount mismatch", s)
        else if b.status == "confirmed" && b.paymentStatus == "completed" then
          (Except.ok { success := true, message := "Booking already confirmed",
                       idempotent := true }, s)
        else
          match confirmBooking s b.id w.payment.paymentId "razorpay" now with
          | (Except.error msg, s1) =>
              (Except.error ("Webhook processing failed: " ++ msg), s1)
          | (Except.ok _, s1) =>
              (Except.ok { success := true,
                           message := "Payment verified and booking confirmed",
                           idempotent := false }, s1)
  else if w.event == "payment.failed" then
    let bookings1 := s.db.bookings.map (fun b =>
      if b.paymentId == some w.payment.orderId && b.paymentGateway == some "razorpay" then
        { b with paymentStatus := "failed" }
      else b)
    (Except.ok { success := false, message := "Payment failed", idempotent := false },
     { s with db := { s.db with bookings := bookings1 } })
  else
    (Except.ok { success := true,
                 message := "Event " ++ w.event ++ " received but not processed",
                 idempotent := false }, s)

/-- `handleWebhook` — the `POST /api/v1/payments/webhook` controller.  Returns
the HTTP status code and the `success` flag of the JSON response.  A missing
signature header yields 400; every other outcome — including every processing
error, transient or not — yields 200 (the catch block deliberately replies 200
with `success: false`). -/
def handleWebhook (s : Sys) (signatureHeader : Option String) (w : WebhookData)
    (sigOk : Bool) (now : Nat) : (Nat × Bool) × Sys :=
  match signatureHeader with
  | none => ((400, false), s)
  | some _ =>
    match handleRazorpayWebhook s w sigOk now with
    | (Except.ok _, s1) => ((200, true), s1)
    | (Except.error _, s1) => ((200, false), s1)

/-! ## Token gate (`src/lib/cache/tokenCache.ts`) -/

/-- A row of the `blacklisted_tokens` table. -/
structure BlacklistRow where
  token : String
  userId : Nat
  expiresAt : Nat
deriving DecidableEq, Repr

/-- A KV entry under `blacklist:{token}` with its remaining TTL in seconds. -/
structure BlacklistEntry where
  token : String
  ttl : Nat
deriving DecidableEq, Repr

/-- The two stores consulted by the token gate. -/
structure TokenStores where
  kvEntries : List BlacklistEntry
  dbRows : List BlacklistRow
deriving DecidableEq, Repr

/-- `isTokenBlacklisted`.  `getOk` models whether the Redis `GET` call
succeeds (`false` = the call throws and the code falls back to the database);
`setOk` models whether the repopulating `SETEX` succeeds (its errors are
ignored).  On a successful `GET`, a present key returns `true` and an absent
key returns `false` immediately — the database is consulted only when the
`GET` itself fails. -/
def isTokenBlacklisted (ts : TokenStores) (token : String) (now : Nat)
    (getOk setOk : Bool) : Bool × TokenStores :=
  if getOk then
    if ts.kvEntries.any (fun e => e.token == token) then (true, ts) else (false, ts)
  else
    match ts.dbRows.find? (fun r => r.token == token && decide (now < r.expiresAt)) with
    | some r =>
        let ttl := r.expiresAt - now
        if 0 < ttl && setOk then
          (true, { ts with kvEntries := { token := token, ttl := ttl } :: ts.kvEntries })
        else (true, ts)
    | none => (false, ts)

/-! ## Invariants -/

/-- At most one `seats` row per `(seat_type_id, seat_label)` — the load-bearing
unique constraint of §6 of the spec. -/
def SeatKeyUnique (seats : List SeatRow) : Prop :=
  seats.Pairwise (fun a b => ¬(a.seatTypeId = b.seatTypeId ∧ a.seatLabel = b.seatLabel))

/-- `bid` identifies a non-cancelled booking among `bookings`. -/
def bookingLive (bookings : List BookingRow) (bid : Nat) : Prop :=
  ∃ b ∈ bookings, b.id = bid ∧ b.status ≠ "cancelled"

/-- Every seat is held by at most one non-cancelled booking (C1 / Invariant B
uniqueness part). -/
def SeatLinkUnique (db : DB) : Prop :=
  ∀ l1 ∈ db.bookingSeats, ∀ l2 ∈ db.bookingSeats,
    l1.seatId = l2.seatId → bookingLive db.bookings l1.bookingId →
      bookingLive db.bookings l2.bookingId → l1.bookingId = l2.bookingId

/-- Number of `seats` rows of a given seat type. -/
def typeRowCount (seats : List SeatRow) (tid : Nat) : Nat :=
  seats.countP (fun r => r.seatTypeId == tid)

/-- Number of live rows of a seat type: `booked`, or `locked` and unexpired. -/
def liveRowCount (seats : List SeatRow) (tid now : Nat) : Nat :=
  seats.countP (fun r => r.seatTypeId == tid &&
    (r.status == SeatStatus.booked ||
      (r.status == SeatStatus.locked && decide (now < r.expiresAt))))

/-- Invariant A in row form: for every seat type,
`available_quantity + count(rows of the type) = quantity`.  (Each existing row
— fresh, expired-but-unswept, or booked — accounts for exactly one decremented
unit; the sweeper deletes the expired rows and refunds their units, after
which the row count coincides with the live count.) -/
def AvailConservation (db : DB) : Prop :=
  ∀ st ∈ db.seatTypes, st.available + (typeRowCount db.seats st.id : Int) = st.quantity

/-- Primary-key uniqueness of `event_seat_types.id`. -/
def TypeIdsNodup (db : DB) : Prop :=
  (db.seatTypes.map (fun st => st.id)).Nodup

instance (seats : List SeatRow) : Decidable (SeatKeyUnique seats) := by
  unfold SeatKeyUnique
  infer_instance

instance (bookings : List BookingRow) (bid : Nat) : Decidable (bookingLive bookings bid) := by
  unfold bookingLive
  infer_instance

instance (db : DB) : Decidable (SeatLinkUnique db) := by
  unfold SeatLinkUnique
  infer_instance

instance (db : DB) : Decidable (AvailConservation db) := by
  unfold AvailConservation
  infer_instance

instance (db : DB) : Decidable (TypeIdsNodup db) := by
  unfold TypeIdsNodup
  infer_instance

/-! ## Concrete states used by witnesses and counterexamples -/

/-- An empty relational store. -/
def emptyDB : DB :=
  { events := [], seatTypes := [], seats := [], bookings := [],
    bookingSeats := [], idemKeys := [] }

/-- State for the C10 witness: no KV entry, no seat rows. -/
def relStateNoLock : Sys := { db := emptyDB, kv := { seatLocks := [] } }

/-- State for the C9 counterexample: reachable KV without the entry, DB
blacklist row present and unexpired. -/
def tokStores : TokenStores :=
  { kvEntries := [],
    dbRows := [{ token := "tok", userId := 1, expiresAt := 1000 }] }

/-- State for the C6 counterexample: a published event whose `start_date`
(5) is already in the past at `now = 100`, with availability left. -/
def pastEventState : Sys :=
  { db := { events := [{ id := 1, status := "published", startDate := 5 }],
            seatTypes := [{ id := 2, eventId := 1, price := 500, quantity := 10, available := 10 }],
            seats := [], bookings := [], bookingSeats := [], idemKeys := [] },
    kv := { seatLocks := [] } }

/-- State for the C3 counterexample: booking 1 is already `confirmed` with
`payment_status = completed` and `payment_id = pay_X`. -/
def confirmedBookingState : Sys :=
  { db := { events := [], seatTypes := [], seats := [],
            bookings := [{ id := 1, reference := "BKG-2026-0101-000000-AAAA", eventId := 1,
                           userId := 7, totalAmount := 500, status := "confirmed",
                           paymentStatus := "completed", paymentId := some "pay_X",
                           paymentGateway := some "razorpay", expiresAt := 1000 }],
            bookingSeats := [], idemKeys := [] },
    kv := { seatLocks := [] } }

/-- State for the C5 counterexample: pending booking 1 is linked to seat 10
(already `booked`) and seat 11 (still `locked`). -/
def mixedSeatsBookingState : Sys :=
  { db := { events := [{ id := 1, status := "published", startDate := 10000 }],
            seatTypes := [{ id := 2, eventId := 1, price := 500, quantity := 10, available := 8 }],
            seats := [{ id := 10, eventId := 1, seatTypeId := 2, seatLabel := "V1", userId := 7,
                        status := SeatStatus.booked, lockedAt := 0, expiresAt := 600 },
                      { id := 11, eventId := 1, seatTypeId := 2, seatLabel := "V2", userId := 7,
                        status := SeatStatus.locked, lockedAt := 0, expiresAt := 600 }],
            bookings := [{ id := 1, reference := "BKG-2026-0101-000000-BBBB", eventId := 1,
                           userId := 7, totalAmount := 1000, status := "pending",
                           paymentStatus := "pending", paymentId := none,
                           paymentGateway := none, expiresAt := 1000 }],
            bookingSeats := [{ bookingId := 1, seatId := 10, pricePaid := 500 },
                             { bookingId := 1, seatId := 11, pricePaid := 500 }],
            idemKeys := [] },
    kv := { seatLocks := [] } }

/-- State for the C4 theorem: no booking exists for the incoming order id, so
webhook processing throws. -/
def noOrderState : Sys := { db := emptyDB, kv := { seatLocks := [] } }

/-- The C4 failing input: a correctly signed `payment.captured` event for
order `order_9`. -/
def capturedWebhook : WebhookData :=
  { event := "payment.captured",
    payment := { orderId := "order_9", paymentId := "pay_9", amount := 500, status := "captured" } }

/-- State for the C2 witness: two seat types satisfying Invariant A, one
booked row and one lock already expired at `now = 100`. -/
def sweepState : Sys :=
  { db := { events := [{ id := 1, status := "published", startDate := 10000 }],
            seatTypes := [{ id := 2, eventId := 1, price := 500, quantity := 10, available := 8 },
                          { id := 3, eventId := 1, price := 900, quantity := 5, available := 5 }],
            seats := [{ id := 10, eventId := 1, seatTypeId := 2, seatLabel := "V1", userId := 7,
                        status := SeatStatus.booked, lockedAt := 0, expiresAt := 600 },
                      { id := 11, eventId := 1, seatTypeId := 2, seatLabel := "V2", userId := 8,
                        status := SeatStatus.locked, lockedAt := 0, expiresAt := 50 }],
            bookings := [], bookingSeats := [], idemKeys := [] },
    kv := { seatLocks := [] } }

/-- State for the C8 witness: the transaction starts with the KV entry held by
user 7 (written by the fast path) but the seat type's availability already at
zero, as a concurrent operation would leave it. -/
def zeroAvailState : Sys :=
  { db := { events := [{ id := 1, status := "published", startDate := 10000 }],
            seatTypes := [{ id := 2, eventId := 1, price := 500, quantity := 3, available := 0 }],
            seats := [], bookings := [], bookingSeats := [], idemKeys := [] },
    kv := { seatLocks := [((1, 2, "V1"), { userId := 7, lockedAt := 90, expiresAt := 690 })] } }

/-! ## Label-normalisation lemmas

`trim().toUpperCase()` is idempotent; the seat-lock fast path re-normalises
the already-normalised label it receives from `lockSeat`, and these lemmas
let the two coincide.
-/

theorem toNat_upChar (c : Char) :
    (upChar c).toNat = if 97 ≤ c.toNat ∧ c.toNat ≤ 122 then c.toNat - 32 else c.toNat := by
  unfold upChar
  by_cases h : 97 ≤ c.toNat ∧ c.toNat ≤ 122
  · have hlt : c.toNat - 32 < 55296 := by omega
    have hv : Nat.isValidChar (c.toNat - 32) := Or.inl hlt
    rw [if_pos h, if_pos h]
    simp only [Char.ofNat, dif_pos hv]
    rfl
  · rw [if_neg h, if_neg h]

theorem isWS_upChar (c : Char) : isWS (upChar c) = isWS c := by
  unfold isWS
  rw [toNat_upChar]
  by_cases h : 97 ≤ c.toNat ∧ c.toNat ≤ 122
  · rw [if_pos h]
    simp only [decide_eq_decide]
    omega
  · rw [if_neg h]

theorem upChar_upChar (c : Char) : upChar (upChar c) = upChar c := by
  have h2 : ¬(97 ≤ (upChar c).toNat ∧ (upChar c).toNat ≤ 122) := by
    rw [toNat_upChar]
    by_cases h : 97 ≤ c.toNat ∧ c.toNat ≤ 122
    · rw [if_pos h]
      omega
    · rw [if_neg h]
      exact h
  show (if 97 ≤ (upChar c).toNat ∧ (upChar c).toNat ≤ 122 then
      Char.ofNat ((upChar c).toNat - 32) else upChar c) = upChar c
  rw [if_neg h2]

theorem listTrim_eq_rdropWhile (l : List Char) :
    listTrim l = List.rdropWhile isWS (l.dropWhile isWS) := rfl

theorem dropWhile_of_prefix_of_dropWhile {p : Char → Bool} {m r : List Char}
    (hm : m.dropWhile p = m) (hr : r <+: m) : r.dropWhile p = r := by
  rw [List.dropWhile_eq_self_iff]
  intro hl
  obtain ⟨t, ht⟩ := hr
  subst ht
  have h0 : 0 < (r ++ t).length := by
    rw [List.length_append]
    omega
  have hd := (List.dropWhile_eq_self_iff.mp hm) h0
  have hget : (r ++ t).get ⟨0, h0⟩ = r.get ⟨0, hl⟩ := by
    simp [List.get_eq_getElem, List.getElem_append_left hl]
  rw [hget] at hd
  exact hd

theorem listTrim_idem (l : List Char) : listTrim (listTrim l) = listTrim l := by
  rw [listTrim_eq_rdropWhile, listTrim_eq_rdropWhile]
  have h1 : (l.dropWhile isWS).dropWhile isWS = l.dropWhile isWS :=
    List.dropWhile_idempotent _ _
  have h2 : (List.rdropWhile isWS (l.dropWhile isWS)).dropWhile isWS =
      List.rdropWhile isWS (l.dropWhile isWS) :=
    dropWhile_of_prefix_of_dropWhile h1 (List.rdropWhile_prefix _ _)
  rw [h2, List.rdropWhile_idempotent]

theorem dropWhile_map_upChar (l : List Char) :
    (l.map upChar).dropWhile isWS = (l.dropWhile isWS).map upChar := by
  rw [List.dropWhile_map]
  have h : (isWS ∘ upChar) = isWS := funext isWS_upChar
  rw [h]

theorem listTrim_map_upChar (l : List Char) :
    listTrim (l.map upChar) = (listTrim l).map upChar := by
  unfold listTrim
  rw [dropWhile_map_upChar, ← List.map_reverse, dropWhile_map_upChar,
    ← List.map_reverse]

theorem normalizeLabel_data (s : String) :
    (normalizeLabel s).data = (listTrim s.data).map upChar := rfl

theorem normalizeLabel_idem (s : String) :
    normalizeLabel (normalizeLabel s) = normalizeLabel s := by
  have h1 : (trimString (normalizeLabel s)).data = (listTrim s.data).map upChar := by
    show listTrim ((listTrim s.data).map upChar) = (listTrim s.data).map upChar
    rw [listTrim_map_upChar, listTrim_idem]
  show String.mk ((trimString (normalizeLabel s)).data.map upChar) = normalizeLabel s
  rw [h1, List.map_map]
  have h2 : (upChar ∘ upChar) = upChar := funext upChar_upChar
  rw [h2]
  rfl

/-! ## Claim C10 — `releaseSeatLock` result semantics -/

/-- CLAIM C10: `releaseSeatLock` returns `true` for every call in which the KV
store holds no entry for the seat's lock key — including when the caller never
held a lock and no seat row exists — and returns `false` exactly when the KV
entry exists and records a different owning user; its boolean result therefore
does not indicate whether any lock was actually released. -/
theorem releaseSeatLock_result_semantics (s : Sys) (eventId seatTypeId : Nat)
    (seatLabel : String) (userId : Nat) :
    (kvGetLock s.kv (eventId, seatTypeId, normalizeLabel seatLabel) = none →
      (releaseSeatLock s eventId seatTypeId seatLabel userId).1 = true) ∧
    ((releaseSeatLock s eventId seatTypeId seatLabel userId).1 = false ↔
      ∃ d, kvGetLock s.kv (eventId, seatTypeId, normalizeLabel seatLabel) = some d ∧
        d.userId ≠ userId) := by
  unfold releaseSeatLock
  cases h : kvGetLock s.kv (eventId, seatTypeId, normalizeLabel seatLabel) with
  | none => simp [h]
  | some d =>
    by_cases hu : d.userId = userId <;> simp [h, hu]

/-- Witness for C10: at a state with no KV entry and no seat rows at all, the
call still returns `true`. -/
theorem releaseSeatLock_result_semantics_witness :
    (releaseSeatLock relStateNoLock 1 2 "V1" 7).1 = true :=
  (releaseSeatLock_result_semantics relStateNoLock 1 2 "V1" 7).1 (by decide)

/-! ## Claim C9 — token blacklist read path -/

/-- CLAIM C9 counterexample: token `tok` is in the DB blacklist and unexpired
(`now = 10 < 1000`), the KV store is reachable (`getOk = true`) but holds no
entry — `isTokenBlacklisted` returns `false`, so a KV miss does *not* fall
back to the relational store as the claim states. -/
theorem isTokenBlacklisted_kv_miss_ignores_db :
    (isTokenBlacklisted tokStores "tok" 10 true true).1 = false := by decide

/-- CLAIM C9 (amended): on a successful KV read the result is exactly
"the entry is present", with no DB consultation and no state change; the
relational store is consulted only when the KV read itself fails, and in that
case a token the DB reports as blacklisted yields `true`, repopulating the KV
entry with the remaining TTL when the KV write succeeds. -/
theorem isTokenBlacklisted_read_path (ts : TokenStores) (token : String)
    (now : Nat) (setOk : Bool) :
    ((isTokenBlacklisted ts token now true setOk).1 =
        ts.kvEntries.any (fun e => e.token == token) ∧
      (isTokenBlacklisted ts token now true setOk).2 = ts) ∧
    (∀ r, ts.dbRows.find? (fun x => x.token == token && decide (now < x.expiresAt)) = some r →
      (isTokenBlacklisted ts token now false setOk).1 = true ∧
      (setOk = true →
        (isTokenBlacklisted ts token now false setOk).2.kvEntries =
          { token := token, ttl := r.expiresAt - now } :: ts.kvEntries)) := by
  constructor
  · unfold isTokenBlacklisted
    cases h : ts.kvEntries.any (fun e => e.token == token) <;> simp [h]
  · intro r hr
    have hp := List.find?_some hr
    simp only [Bool.and_eq_true, decide_eq_true_eq] at hp
    have httl : 0 < r.expiresAt - now := by omega
    unfold isTokenBlacklisted
    rw [hr]
    constructor
    · cases setOk <;> simp [httl]
    · intro hset
      subst hset
      simp [httl]

/-- Witness for C9's amended theorem: concrete KV-outage lookup on `tokStores`
returns `true` and repopulates the entry with TTL `990`. -/
theorem isTokenBlacklisted_read_path_witness :
    (isTokenBlacklisted tokStores "tok" 10 false true).1 = true ∧
    (isTokenBlacklisted tokStores "tok" 10 false true).2.kvEntries =
      [{ token := "tok", ttl := 990 }] := by
  have h := (isTokenBlacklisted_read_path tokStores "tok" 10 true).2
    { token := "tok", userId := 1, expiresAt := 1000 } (by decide)
  exact ⟨h.1, (h.2 rfl).trans (by decide)⟩

/-! ## Claim C4 — webhook HTTP status on processing failure -/

/-- CLAIM C4: at the failing input — a correctly signed `payment.captured`
delivery whose processing throws because no booking exists for the order id —
the webhook controller replies HTTP 200 with `success = false` (its catch
block always replies 200), so a transient server-side failure is *not*
signalled to the provider with a 5xx as the claim (and the repo's own
production-readiness review) requires. -/
theorem handleWebhook_returns_200_on_processing_error :
    handleWebhook noOrderState (some "sig") capturedWebhook true 100 =
      ((200, false), noOrderState) ∧
    (handleRazorpayWebhook noOrderState capturedWebhook true 100).1 =
      Except.error "Webhook processing failed: Booking not found for order_id: order_9" := by
  constructor <;> rfl

/-! ## Claim C3 — confirm-booking idempotence -/

/-- CLAIM C3 counterexample: booking 1 of `confirmedBookingState` is already
`confirmed` with `payment_status = completed` and matching `payment_id`
`pay_X`; `confirmBooking` returns the error `Booking is already confirmed`
instead of the existing confirmation. -/
theorem confirmBooking_already_confirmed_errors :
    confirmBooking confirmedBookingState 1 "pay_X" "razorpay" 100 =
      (Except.error "Booking is already confirmed", confirmedBookingState) := by
  rfl

/-! ## Claim C5 — confirm-booking seat guard -/

/-- CLAIM C5 counterexample: in `mixedSeatsBookingState`, booking 1 is linked
to seat 10 — which is *not* in status `locked` (it is `booked`) — and to the
locked seat 11; `confirmBooking` nevertheless succeeds, transitioning only
seat 11, instead of rejecting as the claim states. -/
theorem confirmBooking_succeeds_with_nonlocked_linked_seat :
    (confirmBooking mixedSeatsBookingState 1 "pay_1" "razorpay" 100).1 =
      Except.ok { bookingId := 1, reference := "BKG-2026-0101-000000-BBBB",
                  status := "confirmed", paymentStatus := "completed",
                  paymentId := some "pay_1", bookedSeatIds := [11] } := by
  rfl

/-! ## Claim C6 — event guard of Acquire -/

/-- CLAIM C6 counterexample: the event of `pastEventState` is `published` but
its `start_date` (5) is in the past at `now = 100`; `lockSeat` nevertheless
succeeds — Acquire never checks `start_date`. -/
theorem lockSeat_ignores_start_date :
    (lockSeat pastEventState 1 2 7 "V1" 100 50).1 =
      Except.ok { id := 50, eventId := 1, seatTypeId := 2, seatLabel := "V1",
                  userId := 7, status := SeatStatus.locked, lockedAt := 100,
                  expiresAt := 700 } := by
  rfl

/-- CLAIM C6 (amended): Acquire succeeds only when the event exists and its
status is `published`; a missing event fails with `Event not found` and an
unpublished event with `Event is not available for booking`, both without any
KV or DB write (an empty label is rejected even earlier).  `start_date` is not
checked by Acquire — the started-event check lives in `createBooking`. -/
theorem lockSeat_event_guard (s : Sys) (eventId seatTypeId userId : Nat)
    (seatLabel : String) (now newId : Nat) :
    ((trimString seatLabel).data.length = 0 →
      lockSeat s eventId seatTypeId userId seatLabel now newId =
        (Except.error "Seat label is required", s)) ∧
    ((trimString seatLabel).data.length ≠ 0 →
      (s.db.events.find? (fun e => e.id == eventId) = none →
        lockSeat s eventId seatTypeId userId seatLabel now newId =
          (Except.error "Event not found", s)) ∧
      (∀ e, s.db.events.find? (fun x => x.id == eventId) = some e →
        e.status ≠ "published" →
        lockSeat s eventId seatTypeId userId seatLabel now newId =
          (Except.error "Event is not available for booking", s))) ∧
    (∀ res s', lockSeat s eventId seatTypeId userId seatLabel now newId =
        (Except.ok res, s') →
      ∃ e, s.db.events.find? (fun x => x.id == eventId) = some e ∧
        e.status = "published") := by
  have hEmpty : (trimString seatLabel).data.length = 0 →
      lockSeat s eventId seatTypeId userId seatLabel now newId =
        (Except.error "Seat label is required", s) := by
    intro h0
    unfold lockSeat
    rw [if_pos (by simpa using h0)]
  have hNone : (trimString seatLabel).data.length ≠ 0 →
      s.db.events.find? (fun e => e.id == eventId) = none →
      lockSeat s eventId seatTypeId userId seatLabel now newId =
        (Except.error "Event not found", s) := by
    intro h0 hfind
    unfold lockSeat
    rw [if_neg (by simpa using h0), hfind]
  have hUnpub : (trimString seatLabel).data.length ≠ 0 →
      ∀ e, s.db.events.find? (fun x => x.id == eventId) = some e →
      e.status ≠ "published" →
      lockSeat s eventId seatTypeId userId seatLabel now newId =
        (Except.error "Event is not available for booking", s) := by
    intro h0 e hfind hne
    unfold lockSeat
    rw [if_neg (by simpa using h0), hfind]
    have hb : (e.status == "published") = false := by simpa using hne
    simp only [hb, Bool.not_false, if_true]
  refine ⟨hEmpty, fun h0 => ⟨hNone h0, hUnpub h0⟩, ?_⟩
  intro res s' hok
  by_cases h0 : (trimString seatLabel).data.length = 0
  · rw [hEmpty h0] at hok
    simp at hok
  · cases hfind : s.db.events.find? (fun x => x.id == eventId) with
    | none =>
      rw [hNone h0 hfind] at hok
      simp at hok
    | some e =>
      by_cases hpub : e.status = "published"
      · exact ⟨e, rfl, hpub⟩
      · rw [hUnpub h0 e hfind hpub] at hok
        simp at hok

/-- Witness for C6's amended theorem: concrete checks of the three guard
conclusions on `pastEventState` (missing event 9; the success at `now = 100`
implies the event is published). -/
theorem lockSeat_event_guard_witness :
    lockSeat pastEventState 9 2 7 "V1" 100 50 = (Except.error "Event not found", pastEventState) ∧
    ∃ e, pastEventState.db.events.find? (fun x => x.id == 1) = some e ∧
      e.status = "published" := by
  constructor
  · exact ((lockSeat_event_guard pastEventState 9 2 7 "V1" 100 50).2.1 (by decide)).1 (by decide)
  · exact (lockSeat_event_guard pastEventState 1 2 7 "V1" 100 50).2.2 _ _ (by rfl)

/-- On a label whose normalisation fails the `^[A-Z0-9]{1,20}$` validation,
`acquireSeatLock` throws before its conditional set: the state is untouched. -/
theorem acquireSeatLock_invalid_label (s : Sys) (eventId seatTypeId : Nat)
    (lbl : String) (userId now : Nat)
    (hbad : ¬(labelMatchesPattern (normalizeLabel lbl) = true ∧
      (normalizeLabel lbl).data.length ≤ 20)) :
    ∃ msg, acquireSeatLock s eventId seatTypeId lbl userId now =
      (Except.error msg, s) := by
  unfold acquireSeatLock
  by_cases hp : labelMatchesPattern (normalizeLabel lbl) = true
  · have hlen : 20 < (normalizeLabel lbl).data.length := by
      by_contra hle
      exact hbad ⟨hp, by omega⟩
    rw [if_neg (by simp [hp]), if_pos hlen]
    exact ⟨_, rfl⟩
  · rw [if_pos (by simp [Bool.not_eq_true] at hp; simp [hp])]
    exact ⟨_, rfl⟩

/-- CLAIM C7: any seat label that, after trimming and uppercasing, does not
match `^[A-Z0-9]{1,20}$` makes Acquire fail with an error before any write:
the KV store and the relational store are exactly as before the call. -/
theorem lockSeat_rejects_invalid_label (s : Sys) (eventId seatTypeId userId : Nat)
    (seatLabel : String) (now newId : Nat)
    (hbad : ¬(labelMatchesPattern (normalizeLabel seatLabel) = true ∧
      (normalizeLabel seatLabel).data.length ≤ 20)) :
    (lockSeat s eventId seatTypeId userId seatLabel now newId).2 = s ∧
    ∃ msg, (lockSeat s eventId seatTypeId userId seatLabel now newId).1 =
      Except.error msg := by
  unfold lockSeat
  split
  · exact ⟨rfl, _, rfl⟩
  · split
    · exact ⟨rfl, _, rfl⟩
    · split
      · exact ⟨rfl, _, rfl⟩
      · split
        · exact ⟨rfl, _, rfl⟩
        · split
          · exact ⟨rfl, _, rfl⟩
          · have hbad2 : ¬(labelMatchesPattern (normalizeLabel (normalizeLabel seatLabel)) = true ∧
                (normalizeLabel (normalizeLabel seatLabel)).data.length ≤ 20) := by
              rw [normalizeLabel_idem]
              exact hbad
            obtain ⟨msg, hacq⟩ :=
              acquireSeatLock_invalid_label s eventId seatTypeId
                (normalizeLabel seatLabel) userId now hbad2
            dsimp only
            rw [hacq]
            exact ⟨rfl, _, rfl⟩

/-- Witness for C7 at the concrete label `" v!% "` (normalises to `V!%`,
which fails the pattern) on `pastEventState`. -/
theorem lockSeat_rejects_invalid_label_witness :
    (lockSeat pastEventState 1 2 7 " v!% " 100 50).2 = pastEventState ∧
    ∃ msg, (lockSeat pastEventState 1 2 7 " v!% " 100 50).1 = Except.error msg :=
  lockSeat_rejects_invalid_label pastEventState 1 2 7 " v!% " 100 50 (by decide)

/-- CLAIM C5 (amended): ConfirmBooking locks only the linked seat rows that
are still in status `locked` and rejects — with the transaction aborted and
the stores unchanged — when *none* of the linked seat rows is `locked`
(linked rows in other statuses are skipped rather than causing rejection). -/
theorem confirmBooking_rejects_when_no_locked_seats (s : Sys) (bookingId : Nat)
    (paymentId gateway : String) (now : Nat)
    (h : confirmLockedSeatsQuery s.db bookingId = []) :
    (confirmBooking s bookingId paymentId gateway now).2 = s ∧
    ∃ msg, (confirmBooking s bookingId paymentId gateway now).1 =
      Except.error msg := by
  unfold confirmBooking
  split
  · exact ⟨rfl, _, rfl⟩
  · split
    · exact ⟨rfl, _, rfl⟩
    · split
      · exact ⟨rfl, _, rfl⟩
      · split
        · exact ⟨rfl, _, rfl⟩
        · dsimp only
          rw [h]
          exact ⟨rfl, _, rfl⟩

/-- Witness for C5's amended theorem: booking 3 has no linked seats at all in
`mixedSeatsBookingState`, so confirmation rejects and changes nothing. -/
theorem confirmBooking_rejects_when_no_locked_seats_witness :
    (confirmBooking mixedSeatsBookingState 3 "pay_1" "razorpay" 100).2 =
      mixedSeatsBookingState ∧
    ∃ msg, (confirmBooking mixedSeatsBookingState 3 "pay_1" "razorpay" 100).1 =
      Except.error msg :=
  confirmBooking_rejects_when_no_locked_seats mixedSeatsBookingState 3 "pay_1"
    "razorpay" 100 (by decide)

/-- CLAIM C3 (amended): `confirmBooking` applied to a booking that is already
`confirmed` with `payment_status = completed` fails with the error
`Booking is already confirmed` and leaves the state unchanged, whatever the
payment id; webhook-level idempotence comes from `handleRazorpayWebhook`,
which returns success (marked `idempotent`) without invoking `confirmBooking`
when the booking it finds by order id is already confirmed, so re-deliveries
cause no second pending-to-confirmed transition. -/
theorem confirm_idempotence_semantics :
    (∀ (s : Sys) (bid : Nat) (pid gw : String) (now : Nat) (b : BookingRow),
      s.db.bookings.find? (fun x => x.id == bid) = some b →
      b.status = "confirmed" → b.paymentStatus = "completed" →
      bid ≠ 0 → pid ≠ "" →
      confirmBooking s bid pid gw now =
        (Except.error "Booking is already confirmed", s)) ∧
    (∀ (s : Sys) (w : WebhookData) (now : Nat) (b : BookingRow),
      w.event = "payment.captured" → w.payment.status = "captured" →
      s.db.bookings.find? (fun x =>
        x.paymentId == some w.payment.orderId &&
          x.paymentGateway == some "razorpay") = some b →
      b.totalAmount = w.payment.amount →
      b.status = "confirmed" → b.paymentStatus = "completed" →
      handleRazorpayWebhook s w true now =
        (Except.ok { success := true, message := "Booking already confirmed",
                     idempotent := true }, s)) := by
  constructor
  · intro s bid pid gw now b hfind hst hpay hbid hpid
    unfold confirmBooking
    rw [if_neg (by simp [hbid, hpid]), hfind]
    dsimp only
    rw [if_pos (by simp [hst, hpay])]
  · intro s w now b hev hps hfind hamt hst hpay
    unfold handleRazorpayWebhook
    rw [if_neg (by simp), if_pos (by simp [hev]), if_neg (by simp [hps]), hfind]
    dsimp only
    rw [if_neg (by simp [hamt]), if_pos (by simp [hst, hpay])]

/-- Witness for C3's amended theorem at `confirmedBookingState` (both the
direct `confirmBooking` rejection and the webhook short-circuit). -/
theorem confirm_idempotence_semantics_witness :
    confirmBooking confirmedBookingState 1 "pay_Y" "razorpay" 100 =
      (Except.error "Booking is already confirmed", confirmedBookingState) ∧
    handleRazorpayWebhook confirmedBookingState
      { event := "payment.captured",
        payment := { orderId := "pay_X", paymentId := "pay_Y", amount := 500,
                     status := "captured" } } true 100 =
      (Except.ok { success := true, message := "Booking already confirmed",
                   idempotent := true }, confirmedBookingState) := by
  constructor
  · exact confirm_idempotence_semantics.1 confirmedBookingState 1 "pay_Y" "razorpay" 100
      _ (by rfl) (by rfl) (by rfl) (by decide) (by decide)
  · exact confirm_idempotence_semantics.2 confirmedBookingState _ 100
      _ (by rfl) (by rfl) (by rfl) (by rfl) (by rfl) (by rfl)

/-- When no seat row matches the release condition and the KV entry (if any)
belongs to the caller, `releaseSeatLock` returns `true`, deletes only the KV
key, and leaves the relational store unchanged. -/
theorem releaseSeatLock_no_match (s : Sys) (eventId seatTypeId : Nat)
    (lbl : String) (userId : Nat)
    (hnorm : normalizeLabel lbl = lbl)
    (hnokey : ∀ r ∈ s.db.seats, ¬(r.seatTypeId = seatTypeId ∧ r.seatLabel = lbl))
    (howner : (kvGetLock s.kv (eventId, seatTypeId, lbl)).all
      (fun d => d.userId == userId) = true) :
    releaseSeatLock s eventId seatTypeId lbl userId =
      (true, { db := s.db, kv := kvDelLock s.kv (eventId, seatTypeId, lbl) }) := by
  have hhit : ∀ r ∈ s.db.seats,
      releaseHit eventId seatTypeId lbl userId r = false := by
    intro r hr
    have := hnokey r hr
    unfold releaseHit
    by_cases h1 : r.seatTypeId = seatTypeId
    · have h2 : r.seatLabel ≠ lbl := fun h => this ⟨h1, h⟩
      simp [h2]
    · simp [h1]
  have hdel : s.db.seats.filter (releaseHit eventId seatTypeId lbl userId) = [] := by
    simp only [List.filter_eq_nil_iff]
    intro r hr
    simp [hhit r hr]
  have hrem : s.db.seats.filter
      (fun r => !releaseHit eventId seatTypeId lbl userId r) = s.db.seats := by
    apply List.filter_eq_self.mpr
    intro r hr
    simp [hhit r hr]
  unfold releaseSeatLock
  rw [hnorm]
  dsimp only
  cases hkv : kvGetLock s.kv (eventId, seatTypeId, lbl) with
  | none =>
    dsimp only
    rw [hdel, hrem]
    rfl
  | some d =>
    rw [hkv] at howner
    have hd : (d.userId == userId) = true := by simpa [Option.all] using howner
    dsimp only
    rw [hd]
    rw [hdel, hrem]
    rfl

/-- CLAIM C8: when the guarded availability decrement of the Acquire
transaction finds no seat-type row with `available_quantity > 0` (possible
only under concurrent interference, since `lockSeat`'s pre-check saw positive
availability), the transaction aborts with the no-availability error; the seat
row inserted inside the transaction is rolled back and the KV lock entry held
by the caller is deleted, so both stores end in their pre-operation state. -/
theorem lockSeatTx_decrement_failure_compensates (s : Sys)
    (eventId seatTypeId userId : Nat) (lbl : String) (now newId : Nat)
    (hnorm : normalizeLabel lbl = lbl)
    (hnoavail : ∀ st ∈ s.db.seatTypes, st.id = seatTypeId → st.available ≤ 0)
    (hnokey : ∀ r ∈ s.db.seats, ¬(r.seatTypeId = seatTypeId ∧ r.seatLabel = lbl))
    (howner : (kvGetLock s.kv (eventId, seatTypeId, lbl)).all
      (fun d => d.userId == userId) = true) :
    lockSeatTx s eventId seatTypeId userId lbl now newId =
      (Except.error "No seats available for this seat type",
       { db := s.db, kv := kvDelLock s.kv (eventId, seatTypeId, lbl) }) := by
  have hkeyfalse : ∀ r ∈ s.db.seats,
      (r.seatTypeId == seatTypeId && r.seatLabel == lbl) = false := by
    intro r hr
    have := hnokey r hr
    by_cases h1 : r.seatTypeId = seatTypeId
    · have h2 : r.seatLabel ≠ lbl := fun h => this ⟨h1, h⟩
      simp [h2]
    · simp [h1]
  have hlive : (s.db.seats.any (fun r =>
      r.seatTypeId == seatTypeId && r.seatLabel == lbl &&
        ((r.status == SeatStatus.locked && decide (now < r.expiresAt)) ||
          r.status == SeatStatus.booked))) = false := by
    rw [List.any_eq_false]
    intro r hr
    simp [hkeyfalse r hr]
  have htaken : (s.db.seats.any (fun r =>
      r.seatTypeId == seatTypeId && r.seatLabel == lbl)) = false := by
    rw [List.any_eq_false]
    intro r hr
    simp [hkeyfalse r hr]
  have hdec : (s.db.seatTypes.any (fun st =>
      st.id == seatTypeId && decide (0 < st.available))) = false := by
    rw [List.any_eq_false]
    intro st hst
    by_cases h1 : st.id = seatTypeId
    · have := hnoavail st hst h1
      simp [h1]
      omega
    · simp [h1]
  unfold lockSeatTx
  dsimp only
  rw [hlive, htaken, hdec]
  simp only [Bool.false_eq_true, if_false, Bool.not_false, if_true]
  rw [releaseSeatLock_no_match s eventId seatTypeId lbl userId hnorm hnokey howner]

/-- Witness for C8 at `zeroAvailState`: the decrement fails, the transaction
reports no availability, the DB is unchanged and the KV entry is gone. -/
theorem lockSeatTx_decrement_failure_compensates_witness :
    lockSeatTx zeroAvailState 1 2 7 "V1" 100 50 =
      (Except.error "No seats available for this seat type",
       { db := zeroAvailState.db, kv := kvDelLock zeroAvailState.kv (1, 2, "V1") }) :=
  lockSeatTx_decrement_failure_compensates zeroAvailState 1 2 7 "V1" 100 50
    (by decide) (by decide) (by decide) (by decide)

/-! ## State-shape lemmas for the Acquire / CreateBooking invariant (C1) -/

/-- `acquireSeatLock` never touches the relational store. -/
theorem acquireSeatLock_db_eq (s : Sys) (eventId seatTypeId : Nat) (lbl : String)
    (userId now : Nat) :
    (acquireSeatLock s eventId seatTypeId lbl userId now).2.db = s.db := by
  unfold acquireSeatLock
  dsimp only
  split
  · rfl
  · split
    · rfl
    · split <;> rfl

/-- `releaseSeatLock` only ever removes seat rows. -/
theorem releaseSeatLock_seats_sublist (s : Sys) (eventId seatTypeId : Nat)
    (lbl : String) (userId : Nat) :
    List.Sublist (releaseSeatLock s eventId seatTypeId lbl userId).2.db.seats
      s.db.seats := by
  unfold releaseSeatLock
  dsimp only
  split
  · exact List.Sublist.refl _
  · exact List.filter_sublist _

/-- `releaseSeatLock` never touches bookings or booking links. -/
theorem releaseSeatLock_links_eq (s : Sys) (eventId seatTypeId : Nat)
    (lbl : String) (userId : Nat) :
    (releaseSeatLock s eventId seatTypeId lbl userId).2.db.bookings = s.db.bookings ∧
    (releaseSeatLock s eventId seatTypeId lbl userId).2.db.bookingSeats = s.db.bookingSeats := by
  unfold releaseSeatLock
  dsimp only
  split
  · exact ⟨rfl, rfl⟩
  · exact ⟨rfl, rfl⟩

/-- The Acquire transaction preserves the seats unique-key invariant: its only
insertion is guarded by the `ON CONFLICT` absence check. -/
theorem lockSeatTx_preserves_seatKeyUnique (s : Sys) (eventId seatTypeId userId : Nat)
    (lbl : String) (now newId : Nat) (h : SeatKeyUnique s.db.seats) :
    SeatKeyUnique (lockSeatTx s eventId seatTypeId userId lbl now newId).2.db.seats := by
  unfold lockSeatTx
  dsimp only
  split
  · exact List.Pairwise.sublist
      (releaseSeatLock_seats_sublist s eventId seatTypeId lbl userId) h
  · split
    · exact List.Pairwise.sublist
        (releaseSeatLock_seats_sublist s eventId seatTypeId lbl userId) h
    · split
      · exact List.Pairwise.sublist
          (releaseSeatLock_seats_sublist s eventId seatTypeId lbl userId) h
      · next hlive hkey hdec =>
        have hany : (s.db.seats.any (fun r =>
            r.seatTypeId == seatTypeId && r.seatLabel == lbl)) = false :=
          Bool.eq_false_iff.mpr hkey
        rw [List.any_eq_false] at hany
        refine List.pairwise_cons.mpr ⟨?_, h⟩
        intro b hb hcontra
        have hb2 := hany b hb
        simp [hcontra.1.symm, hcontra.2.symm] at hb2

/-- The Acquire transaction never touches bookings or booking links. -/
theorem lockSeatTx_links_eq (s : Sys) (eventId seatTypeId userId : Nat)
    (lbl : String) (now newId : Nat) :
    (lockSeatTx s eventId seatTypeId userId lbl now newId).2.db.bookings = s.db.bookings ∧
    (lockSeatTx s eventId seatTypeId userId lbl now newId).2.db.bookingSeats = s.db.bookingSeats := by
  unfold lockSeatTx
  dsimp only
  split
  · exact releaseSeatLock_links_eq s eventId seatTypeId lbl userId
  · split
    · exact releaseSeatLock_links_eq s eventId seatTypeId lbl userId
    · split
      · exact releaseSeatLock_links_eq s eventId seatTypeId lbl userId
      · exact ⟨rfl, rfl⟩

/-- Acquire preserves the seats unique-key invariant, on success and on every
failure path. -/
theorem lockSeat_preserves_seatKeyUnique (s : Sys) (eventId seatTypeId userId : Nat)
    (seatLabel : String) (now newId : Nat) (h : SeatKeyUnique s.db.seats) :
    SeatKeyUnique (lockSeat s eventId seatTypeId userId seatLabel now newId).2.db.seats := by
  unfold lockSeat
  split
  · exact h
  · split
    · exact h
    · split
      · exact h
      · split
        · exact h
        · split
          · exact h
          · dsimp only
            split
            next msg s1 heq =>
              have hdb : s1.db = s.db := by
                have h2 := acquireSeatLock_db_eq s eventId seatTypeId
                  (normalizeLabel seatLabel) userId now
                rw [heq] at h2
                exact h2
              show SeatKeyUnique s1.db.seats
              rw [hdb]
              exact h
            next s1 heq =>
              have hdb : s1.db = s.db := by
                have h2 := acquireSeatLock_db_eq s eventId seatTypeId
                  (normalizeLabel seatLabel) userId now
                rw [heq] at h2
                exact h2
              show SeatKeyUnique s1.db.seats
              rw [hdb]
              exact h
            next d s1 heq =>
              have hdb : s1.db = s.db := by
                have h2 := acquireSeatLock_db_eq s eventId seatTypeId
                  (normalizeLabel seatLabel) userId now
                rw [heq] at h2
                exact h2
              exact lockSeatTx_preserves_seatKeyUnique s1 eventId seatTypeId userId
                (normalizeLabel seatLabel) now newId (by rw [hdb]; exact h)

/-- Acquire never touches bookings or booking links. -/
theorem lockSeat_links_eq (s : Sys) (eventId seatTypeId userId : Nat)
    (seatLabel : String) (now newId : Nat) :
    (lockSeat s eventId seatTypeId userId seatLabel now newId).2.db.bookings = s.db.bookings ∧
    (lockSeat s eventId seatTypeId userId seatLabel now newId).2.db.bookingSeats = s.db.bookingSeats := by
  unfold lockSeat
  split
  · exact ⟨rfl, rfl⟩
  · split
    · exact ⟨rfl, rfl⟩
    · split
      · exact ⟨rfl, rfl⟩
      · split
        · exact ⟨rfl, rfl⟩
        · split
          · exact ⟨rfl, rfl⟩
          · dsimp only
            split
            next msg s1 heq =>
              have hdb : s1.db = s.db := by
                have h2 := acquireSeatLock_db_eq s eventId seatTypeId
                  (normalizeLabel seatLabel) userId now
                rw [heq] at h2
                exact h2
              show s1.db.bookings = s.db.bookings ∧ s1.db.bookingSeats = s.db.bookingSeats
              rw [hdb]
              exact ⟨rfl, rfl⟩
            next s1 heq =>
              have hdb : s1.db = s.db := by
                have h2 := acquireSeatLock_db_eq s eventId seatTypeId
                  (normalizeLabel seatLabel) userId now
                rw [heq] at h2
                exact h2
              show s1.db.bookings = s.db.bookings ∧ s1.db.bookingSeats = s.db.bookingSeats
              rw [hdb]
              exact ⟨rfl, rfl⟩
            next d s1 heq =>
              have hdb : s1.db = s.db := by
                have h2 := acquireSeatLock_db_eq s eventId seatTypeId
                  (normalizeLabel seatLabel) userId now
                rw [heq] at h2
                exact h2
              have h3 := lockSeatTx_links_eq s1 eventId seatTypeId userId
                (normalizeLabel seatLabel) now newId
              rw [hdb] at h3
              exact h3

/-- Transfer of the link-uniqueness invariant along equal bookings/links. -/
theorem seatLinkUnique_transfer (db db' : DB)
    (hb : db'.bookings = db.bookings) (hl : db'.bookingSeats = db.bookingSeats)
    (h : SeatLinkUnique db) : SeatLinkUnique db' := by
  unfold SeatLinkUnique at h ⊢
  rw [hb, hl]
  exact h

/-- Membership in the link-insertion loop: every resulting link is either a
pre-existing one or links the new booking to one of the selected seats. -/
theorem mem_insertBookingSeats (bid : Nat) (items : List (SeatRow × SeatTypeRow))
    (acc : List BookingSeatRow) (l : BookingSeatRow)
    (hl : l ∈ insertBookingSeats bid items acc) :
    l ∈ acc ∨ (l.bookingId = bid ∧ l.seatId ∈ items.map (fun x => x.1.id)) := by
  induction items generalizing acc with
  | nil => exact Or.inl hl
  | cons x rest ih =>
    unfold insertBookingSeats at hl
    dsimp only at hl
    by_cases hc : (acc.any (fun l2 => l2.bookingId == bid && l2.seatId == x.1.id)) = true
    · rw [if_pos hc] at hl
      rcases ih _ hl with h2 | ⟨h1, h2⟩
      · exact Or.inl h2
      · exact Or.inr ⟨h1, by simp only [List.map_cons, List.mem_cons]; exact Or.inr h2⟩
    · rw [if_neg hc] at hl
      rcases ih _ hl with h2 | ⟨h1, h2⟩
      · rcases List.mem_cons.mp h2 with rfl | hmem
        · exact Or.inr ⟨rfl, by simp⟩
        · exact Or.inl hmem
      · exact Or.inr ⟨h1, by simp only [List.map_cons, List.mem_cons]; exact Or.inr h2⟩

/-- `bookingLive` in Boolean form (as the SQL join of createBooking step 2
computes it). -/
theorem bookingLive_iff_any (bookings : List BookingRow) (x : Nat) :
    bookingLive bookings x ↔
      (bookings.any (fun b => b.id == x && !(b.status == "cancelled"))) = true := by
  unfold bookingLive
  rw [List.any_eq_true]
  constructor
  · rintro ⟨b, hb, h1, h2⟩
    exact ⟨b, hb, by simp [h1, h2]⟩
  · rintro ⟨b, hb, hpred⟩
    simp at hpred
    exact ⟨b, hb, hpred.1, hpred.2⟩

/-- Adding a booking with a fresh id does not change liveness of other ids. -/
theorem bookingLive_cons_ne (bookings : List BookingRow) (nb : BookingRow)
    (x : Nat) (hx : x ≠ nb.id) :
    bookingLive (nb :: bookings) x ↔ bookingLive bookings x := by
  unfold bookingLive
  constructor
  · rintro ⟨b, hb, h1, h2⟩
    rcases List.mem_cons.mp hb with rfl | hmem
    · exact absurd h1 (fun h => hx h.symm)
    · exact ⟨b, hmem, h1, h2⟩
  · rintro ⟨b, hb, h1, h2⟩
    exact ⟨b, List.mem_cons_of_mem _ hb, h1, h2⟩

/-- Outcome shape of `createBooking`: either the transaction rolled back (the
state is unchanged) or the final state adds one pending booking and the links
inserted for the selected locked seats, and the step-2 check saw no live link
on any selected seat. -/
theorem createBooking_db_shape (s : Sys) (eventId userId : Nat)
    (seatDetails : List SeatDetail) (now newBookingId : Nat) (refs : List String) :
    (createBooking s eventId userId seatDetails now newBookingId refs).2 = s ∨
    ∃ ref total,
      (s.db.bookingSeats.filter (fun l =>
        ((lockedSeatsQuery s.db eventId userId
            (seatDetails.map (fun d => normalizeLabel d.seatLabel))
            (seatDetails.map (fun d => d.seatTypeId)) now).map (fun x => x.1.id)).contains l.seatId &&
          s.db.bookings.any (fun b => b.id == l.bookingId && !(b.status == "cancelled")))) = [] ∧
      (createBooking s eventId userId seatDetails now newBookingId refs).2 =
        { s with db := { s.db with
            bookings :=
              { id := newBookingId, reference := ref, eventId := eventId,
                userId := userId, totalAmount := total, status := "pending",
                paymentStatus := "pending", paymentId := none,
                paymentGateway := none, expiresAt := now + 900 } :: s.db.bookings,
            bookingSeats := insertBookingSeats newBookingId
              (lockedSeatsQuery s.db eventId userId
                (seatDetails.map (fun d => normalizeLabel d.seatLabel))
                (seatDetails.map (fun d => d.seatTypeId)) now)
              s.db.bookingSeats } } := by
  unfold createBooking
  split
  · exact Or.inl rfl
  · split
    · exact Or.inl rfl
    · split
      · exact Or.inl rfl
      · split
        · exact Or.inl rfl
        · dsimp only
          split
          · exact Or.inl rfl
          · split
            next hex =>
              exact Or.inl rfl
            next hex =>
              split
              · exact Or.inl rfl
              · split
                · exact Or.inl rfl
                · next ref heq =>
                  split
                  · exact Or.inl rfl
                  · refine Or.inr ⟨ref, _, ?_, rfl⟩
                    have hempty : (s.db.bookingSeats.filter (fun l =>
                        ((lockedSeatsQuery s.db eventId userId
                            (seatDetails.map (fun d => normalizeLabel d.seatLabel))
                            (seatDetails.map (fun d => d.seatTypeId)) now).map
                              (fun x => x.1.id)).contains l.seatId &&
                          s.db.bookings.any (fun b =>
                            b.id == l.bookingId && !(b.status == "cancelled")))).isEmpty = true := by
                      have h2 := Bool.eq_false_iff.mpr hex
                      simpa using h2
                    exact List.isEmpty_iff.mp hempty

/-- `createBooking` never touches the seats table. -/
theorem createBooking_seats_unchanged (s : Sys) (eventId userId : Nat)
    (seatDetails : List SeatDetail) (now newBookingId : Nat) (refs : List String) :
    (createBooking s eventId userId seatDetails now newBookingId refs).2.db.seats =
      s.db.seats := by
  rcases createBooking_db_shape s eventId userId seatDetails now newBookingId refs with
    heq | ⟨ref, total, hex, heq⟩
  · rw [heq]
  · rw [heq]

/-- `createBooking` preserves link uniqueness: the new booking is linked only
to seats the step-2 check saw with no live link, and pre-existing links keep
their liveness status because the new booking id is fresh. -/
theorem createBooking_preserves_seatLinkUnique (s : Sys) (eventId userId : Nat)
    (seatDetails : List SeatDetail) (now newBookingId : Nat) (refs : List String)
    (hlink : SeatLinkUnique s.db)
    (hlfresh : ∀ l ∈ s.db.bookingSeats, l.bookingId ≠ newBookingId) :
    SeatLinkUnique (createBooking s eventId userId seatDetails now newBookingId refs).2.db := by
  rcases createBooking_db_shape s eventId userId seatDetails now newBookingId refs with
    heq | ⟨ref, total, hex, heq⟩
  · rw [heq]
    exact hlink
  · rw [heq]
    unfold SeatLinkUnique
    intro l1 h1 l2 h2 hsid hlive1 hlive2
    have hm1 := mem_insertBookingSeats newBookingId _ _ _ h1
    have hm2 := mem_insertBookingSeats newBookingId _ _ _ h2
    have hOldLive : ∀ (nb : BookingRow), nb.id = newBookingId →
        ∀ l ∈ s.db.bookingSeats,
        bookingLive (nb :: s.db.bookings) l.bookingId →
        bookingLive s.db.bookings l.bookingId := by
      intro nb hid l hl hlive
      refine (bookingLive_cons_ne s.db.bookings nb _ ?_).mp hlive
      rw [hid]
      exact hlfresh l hl
    have hNotSel : ∀ l ∈ s.db.bookingSeats, bookingLive s.db.bookings l.bookingId →
        l.seatId ∉ ((lockedSeatsQuery s.db eventId userId
          (seatDetails.map (fun d => normalizeLabel d.seatLabel))
          (seatDetails.map (fun d => d.seatTypeId)) now).map (fun x => x.1.id)) := by
      intro l hl hlive hmem
      have hpred : (((lockedSeatsQuery s.db eventId userId
          (seatDetails.map (fun d => normalizeLabel d.seatLabel))
          (seatDetails.map (fun d => d.seatTypeId)) now).map
            (fun x => x.1.id)).contains l.seatId &&
          s.db.bookings.any (fun b =>
            b.id == l.bookingId && !(b.status == "cancelled"))) = true := by
        rw [Bool.and_eq_true]
        constructor
        · simpa using hmem
        · exact (bookingLive_iff_any s.db.bookings l.bookingId).mp hlive
      have hmemf : l ∈ s.db.bookingSeats.filter (fun l2 =>
          ((lockedSeatsQuery s.db eventId userId
            (seatDetails.map (fun d => normalizeLabel d.seatLabel))
            (seatDetails.map (fun d => d.seatTypeId)) now).map
              (fun x => x.1.id)).contains l2.seatId &&
            s.db.bookings.any (fun b =>
              b.id == l2.bookingId && !(b.status == "cancelled"))) :=
        List.mem_filter.mpr ⟨hl, hpred⟩
      rw [hex] at hmemf
      exact absurd hmemf (List.not_mem_nil l)
    rcases hm1 with ho1 | ⟨hb1, hs1⟩ <;> rcases hm2 with ho2 | ⟨hb2, hs2⟩
    · exact hlink l1 ho1 l2 ho2 hsid (hOldLive _ rfl l1 ho1 hlive1)
        (hOldLive _ rfl l2 ho2 hlive2)
    · exact absurd (by rw [hsid]; exact hs2)
        (hNotSel l1 ho1 (hOldLive _ rfl l1 ho1 hlive1))
    · exact absurd (by rw [← hsid]; exact hs1)
        (hNotSel l2 ho2 (hOldLive _ rfl l2 ho2 hlive2))
    · rw [hb1, hb2]

/-! ## Claim C1 — no double booking -/

/-- CLAIM C1: both halves of the no-double-booking invariant are preserved by
the two operations the claim cites.  Acquire keeps at most one seat row per
`(seat_type_id, seat_label)` — its insert is guarded by the
`ON CONFLICT (event_seat_type_id, seat_label) DO NOTHING` absence check
(unique constraint modelled from the spec, the migrations being outside the
sources) — and CreateBooking keeps every seat linked to at most one
non-cancelled booking, because it refuses to link any seat that already has a
live link (`ErrAlreadyBooked`).  The new booking id is assumed fresh, as the
database primary key generator guarantees. -/
theorem no_double_booking_invariant (s : Sys)
    (eventId seatTypeId userId : Nat) (seatLabel : String) (now newId : Nat)
    (cEventId cUserId : Nat) (seatDetails : List SeatDetail) (cNow newBookingId : Nat)
    (refs : List String)
    (hkey : SeatKeyUnique s.db.seats) (hlink : SeatLinkUnique s.db)
    (hlfresh : ∀ l ∈ s.db.bookingSeats, l.bookingId ≠ newBookingId) :
    (SeatKeyUnique (lockSeat s eventId seatTypeId userId seatLabel now newId).2.db.seats ∧
     SeatLinkUnique (lockSeat s eventId seatTypeId userId seatLabel now newId).2.db) ∧
    (SeatKeyUnique (createBooking s cEventId cUserId seatDetails cNow newBookingId refs).2.db.seats ∧
     SeatLinkUnique (createBooking s cEventId cUserId seatDetails cNow newBookingId refs).2.db) := by
  refine ⟨⟨lockSeat_preserves_seatKeyUnique s eventId seatTypeId userId seatLabel now newId hkey, ?_⟩,
          ⟨?_, createBooking_preserves_seatLinkUnique s cEventId cUserId seatDetails cNow
            newBookingId refs hlink hlfresh⟩⟩
  · obtain ⟨hb, hl⟩ := lockSeat_links_eq s eventId seatTypeId userId seatLabel now newId
    exact seatLinkUnique_transfer s.db _ hb hl hlink
  · rw [createBooking_seats_unchanged s cEventId cUserId seatDetails cNow newBookingId refs]
    exact hkey

/-- Witness for C1 on `mixedSeatsBookingState` with fresh ids. -/
theorem no_double_booking_invariant_witness :
    SeatKeyUnique (lockSeat mixedSeatsBookingState 1 2 7 "V3" 100 50).2.db.seats ∧
    SeatLinkUnique (createBooking mixedSeatsBookingState 1 7
      [{ seatLabel := "V2", seatTypeId := 2 }] 100 99
      ["BKG-2026-0101-000100-CCCC"]).2.db := by
  have h := no_double_booking_invariant mixedSeatsBookingState 1 2 7 "V3" 100 50
    1 7 [{ seatLabel := "V2", seatTypeId := 2 }] 100 99 ["BKG-2026-0101-000100-CCCC"]
    (by decide) (by decide) (by decide)
  exact ⟨h.1.1, h.2.2⟩

/-! ## Counting lemmas for availability conservation (C2) -/

theorem countP_filter_partition {α : Type} (l : List α) (p q : α → Bool) :
    (l.filter p).countP q + (l.filter (fun a => !p a)).countP q = l.countP q := by
  induction l with
  | nil => rfl
  | cons a t ih =>
    by_cases hp : p a = true <;> by_cases hq : q a = true <;>
      simp [List.filter_cons, List.countP_cons, hp, hq] <;> omega

/-- A filter whose hits all stand in relation `R` to each other keeps at most
one element of a pairwise-`¬R`… formally: if any two hits would contradict the
pairwise relation, the filter keeps at most one element. -/
theorem length_filter_le_one_of_pairwise {α : Type} (l : List α) (p : α → Bool)
    (R : α → α → Prop) (hpair : l.Pairwise R)
    (hcontra : ∀ a b, p a = true → p b = true → R a b → False) :
    (l.filter p).length ≤ 1 := by
  have hsub : (l.filter p).Pairwise R :=
    List.Pairwise.sublist (List.filter_sublist l) hpair
  cases hfp : l.filter p with
  | nil => simp
  | cons x t =>
    cases t with
    | nil => simp
    | cons y t2 =>
      exfalso
      rw [hfp] at hsub
      have hx : p x = true := by
        have hm : x ∈ l.filter p := by
          rw [hfp]
          exact List.mem_cons_self x (y :: t2)
        exact (List.mem_filter.mp hm).2
      have hy : p y = true := by
        have hm : y ∈ l.filter p := by
          rw [hfp]
          simp
        exact (List.mem_filter.mp hm).2
      have hr := (List.pairwise_cons.mp hsub).1 y (by simp)
      exact hcontra x y hx hy hr

/-- The `LEAST`-clamped grouped restore keeps Invariant A: deleting the
filtered rows and refunding their per-type counts preserves
`available + row count = quantity` for every seat-type row. -/
theorem restoreAvailability_preserves (types : List SeatTypeRow)
    (seats : List SeatRow) (del : SeatRow → Bool)
    (hcons : ∀ st ∈ types,
      st.available + ((seats.countP (fun r => r.seatTypeId == st.id)) : Int) = st.quantity) :
    ∀ st ∈ restoreAvailability types
        (fun tid => (seats.filter del).countP (fun r => r.seatTypeId == tid)),
      st.available +
        (((seats.filter (fun r => !del r)).countP (fun r => r.seatTypeId == st.id)) : Int) =
        st.quantity := by
  intro st' hst'
  unfold restoreAvailability at hst'
  obtain ⟨st, hst, rfl⟩ := List.mem_map.mp hst'
  have heq := hcons st hst
  have hpart := countP_filter_partition seats del (fun r => r.seatTypeId == st.id)
  by_cases hk : 0 < (seats.filter del).countP (fun r => r.seatTypeId == st.id)
  · rw [if_pos hk]
    dsimp only
    have hmin : min (st.available +
        (((seats.filter del).countP (fun r => r.seatTypeId == st.id)) : Int)) st.quantity =
        st.available + (((seats.filter del).countP (fun r => r.seatTypeId == st.id)) : Int) := by
      apply min_eq_left
      push_cast at heq ⊢
      omega
    rw [hmin]
    push_cast at heq ⊢
    omega
  · rw [if_neg hk]
    have hk0 : (seats.filter del).countP (fun r => r.seatTypeId == st.id) = 0 := by omega
    push_cast at heq ⊢
    omega

/-- `releaseSeatLock` preserves Invariant A: it deletes at most one row (the
unique-key invariant bounds the hits) and its `+1` restore is guarded. -/
theorem releaseSeatLock_preserves_avail (s : Sys) (eventId seatTypeId : Nat)
    (lbl : String) (userId : Nat)
    (hkey : SeatKeyUnique s.db.seats) (hcons : AvailConservation s.db) :
    AvailConservation (releaseSeatLock s eventId seatTypeId lbl userId).2.db := by
  unfold releaseSeatLock
  dsimp only
  split
  · exact hcons
  · set nl := normalizeLabel lbl with hnl
    have hle1 : (s.db.seats.filter (releaseHit eventId seatTypeId nl userId)).length ≤ 1 := by
      apply length_filter_le_one_of_pairwise s.db.seats _
        (fun a b => ¬(a.seatTypeId = b.seatTypeId ∧ a.seatLabel = b.seatLabel)) hkey
      intro a b ha hb hr
      unfold releaseHit at ha hb
      simp only [Bool.and_eq_true, beq_iff_eq] at ha hb
      exact hr ⟨ha.1.1.1.2.trans hb.1.1.1.2.symm, ha.1.1.2.trans hb.1.1.2.symm⟩
    unfold AvailConservation typeRowCount at hcons ⊢
    intro st hst
    dsimp only at hst ⊢
    by_cases hlen : 0 < (s.db.seats.filter (releaseHit eventId seatTypeId nl userId)).length
    · rw [if_pos hlen] at hst
      unfold restoreOneAvailability at hst
      obtain ⟨st0, hst0, rfl⟩ := List.mem_map.mp hst
      have heq := hcons st0 hst0
      have hpart := countP_filter_partition s.db.seats
        (releaseHit eventId seatTypeId nl userId) (fun r => r.seatTypeId == st0.id)
      by_cases hid : st0.id = seatTypeId
      · -- the released row belongs to this type; exactly one row was deleted
        have hkcount : (s.db.seats.filter
            (releaseHit eventId seatTypeId nl userId)).countP
              (fun r => r.seatTypeId == st0.id) =
            (s.db.seats.filter (releaseHit eventId seatTypeId nl userId)).length := by
          rw [List.countP_eq_length]
          intro r hr
          have hhit := (List.mem_filter.mp hr).2
          unfold releaseHit at hhit
          simp only [Bool.and_eq_true, beq_iff_eq] at hhit
          simp [hhit.1.1.1.2, hid]
        have hguard : st0.available < st0.quantity := by
          have hrowpos : 0 < s.db.seats.countP (fun r => r.seatTypeId == st0.id) := by
            omega
          omega
        rw [if_pos (by simp [hid, hguard])]
        dsimp only
        push_cast at heq ⊢
        omega
      · -- other types: no deleted row and no restore touch them
        have hkcount : (s.db.seats.filter
            (releaseHit eventId seatTypeId nl userId)).countP
              (fun r => r.seatTypeId == st0.id) = 0 := by
          rw [List.countP_eq_zero]
          intro r hr
          have hhit := (List.mem_filter.mp hr).2
          unfold releaseHit at hhit
          simp only [Bool.and_eq_true, beq_iff_eq] at hhit
          simp [hhit.1.1.1.2]
          exact fun h => hid (h ▸ rfl)
        rw [if_neg (by simp [hid])]
        push_cast at heq ⊢
        omega
    · rw [if_neg hlen] at hst
      have hnil : s.db.seats.filter (releaseHit eventId seatTypeId nl userId) = [] := by
        cases hf : s.db.seats.filter (releaseHit eventId seatTypeId nl userId) with
        | nil => rfl
        | cons a t => rw [hf] at hlen; simp at hlen
      have heq := hcons st hst
      have hpart := countP_filter_partition s.db.seats
        (releaseHit eventId seatTypeId nl userId) (fun r => r.seatTypeId == st.id)
      rw [hnil] at hpart
      simp only [List.countP_nil, Nat.zero_add] at hpart
      rw [hpart]
      exact heq

/-- The Acquire transaction preserves Invariant A: the guarded decrement runs
in the same transaction as the row insert, and the compensation paths release
at most the one matching row. -/
theorem lockSeatTx_preserves_avail (s : Sys) (eventId seatTypeId userId : Nat)
    (lbl : String) (now newId : Nat)
    (hkey : SeatKeyUnique s.db.seats) (hnodup : TypeIdsNodup s.db)
    (hcons : AvailConservation s.db) :
    AvailConservation (lockSeatTx s eventId seatTypeId userId lbl now newId).2.db := by
  unfold lockSeatTx
  dsimp only
  split
  · exact releaseSeatLock_preserves_avail s eventId seatTypeId lbl userId hkey hcons
  · split
    · exact releaseSeatLock_preserves_avail s eventId seatTypeId lbl userId hkey hcons
    · split
      · exact releaseSeatLock_preserves_avail s eventId seatTypeId lbl userId hkey hcons
      · next h1 h2 hdec =>
        have hcan : (s.db.seatTypes.any (fun st =>
            st.id == seatTypeId && decide (0 < st.available))) = true := by
          rcases Bool.eq_false_or_eq_true (s.db.seatTypes.any (fun st =>
            st.id == seatTypeId && decide (0 < st.available))) with ht | hf
          · exact ht
          · exact absurd (by rw [hf]; rfl) hdec
        rw [List.any_eq_true] at hcan
        obtain ⟨st2, hst2, hpred2⟩ := hcan
        simp only [Bool.and_eq_true, beq_iff_eq, decide_eq_true_eq] at hpred2
        unfold TypeIdsNodup at hnodup
        unfold AvailConservation typeRowCount at hcons ⊢
        intro st' hst'
        dsimp only at hst' ⊢
        obtain ⟨st0, hst0, rfl⟩ := List.mem_map.mp hst'
        have heq := hcons st0 hst0
        simp only [List.countP_cons]
        by_cases hid : st0.id = seatTypeId
        · have hst02 : st0 = st2 :=
            List.inj_on_of_nodup_map hnodup hst0 hst2 (by rw [hid, hpred2.1])
          have havail : 0 < st0.available := by
            rw [hst02]
            exact hpred2.2
          rw [if_pos (by simp [hid, havail])]
          dsimp only
          have hb : (seatTypeId == st0.id) = true := by simp [hid]
          simp only [hb, if_true]
          push_cast at heq ⊢
          omega
        · rw [if_neg (by simp [hid])]
          have hb : (seatTypeId == st0.id) = false := by
            simp
            exact fun h => hid h.symm
          simp only [hb, Bool.false_eq_true, if_false]
          push_cast at heq ⊢
          omega

/-- Acquire preserves Invariant A on every path. -/
theorem lockSeat_preserves_avail (s : Sys) (eventId seatTypeId userId : Nat)
    (seatLabel : String) (now newId : Nat)
    (hkey : SeatKeyUnique s.db.seats) (hnodup : TypeIdsNodup s.db)
    (hcons : AvailConservation s.db) :
    AvailConservation (lockSeat s eventId seatTypeId userId seatLabel now newId).2.db := by
  unfold lockSeat
  split
  · exact hcons
  · split
    · exact hcons
    · split
      · exact hcons
      · split
        · exact hcons
        · split
          · exact hcons
          · dsimp only
            split
            next msg s1 heq =>
              have hdb : s1.db = s.db := by
                have h2 := acquireSeatLock_db_eq s eventId seatTypeId
                  (normalizeLabel seatLabel) userId now
                rw [heq] at h2
                exact h2
              show AvailConservation s1.db
              rw [hdb]
              exact hcons
            next s1 heq =>
              have hdb : s1.db = s.db := by
                have h2 := acquireSeatLock_db_eq s eventId seatTypeId
                  (normalizeLabel seatLabel) userId now
                rw [heq] at h2
                exact h2
              show AvailConservation s1.db
              rw [hdb]
              exact hcons
            next d s1 heq =>
              have hdb : s1.db = s.db := by
                have h2 := acquireSeatLock_db_eq s eventId seatTypeId
                  (normalizeLabel seatLabel) userId now
                rw [heq] at h2
                exact h2
              exact lockSeatTx_preserves_avail s1 eventId seatTypeId userId
                (normalizeLabel seatLabel) now newId (by rw [hdb]; exact hkey)
                (by unfold TypeIdsNodup; rw [hdb]; exact hnodup)
                (by unfold AvailConservation typeRowCount; rw [hdb]; exact hcons)

/-- The sweeper preserves Invariant A. -/
theorem cleanup_preserves_avail (s : Sys) (now : Nat)
    (hcons : AvailConservation s.db) :
    AvailConservation (cleanupExpiredSeatLocks s now).2.db := by
  unfold cleanupExpiredSeatLocks
  dsimp only
  split
  · exact hcons
  · unfold AvailConservation typeRowCount at hcons ⊢
    exact restoreAvailability_preserves s.db.seatTypes s.db.seats (expiredLockP now) hcons

/-- After the sweeper, no expired locked row remains. -/
theorem cleanup_no_expired (s : Sys) (now : Nat) :
    ∀ r ∈ (cleanupExpiredSeatLocks s now).2.db.seats, expiredLockP now r = false := by
  unfold cleanupExpiredSeatLocks
  dsimp only
  split
  next hempty =>
    intro r hr
    have hnil : s.db.seats.filter (expiredLockP now) = [] := List.isEmpty_iff.mp hempty
    have hall := List.filter_eq_nil_iff.mp hnil
    exact Bool.eq_false_iff.mpr (hall r hr)
  next hempty =>
    intro r hr
    have h2 := (List.mem_filter.mp hr).2
    simpa using h2

/-- On a non-expired row, the live-row predicate coincides with plain
type-membership. -/
theorem live_eq_type_of_not_expired (r : SeatRow) (tid now : Nat)
    (h : expiredLockP now r = false) :
    (r.seatTypeId == tid &&
      (r.status == SeatStatus.booked ||
        (r.status == SeatStatus.locked && decide (now < r.expiresAt)))) =
    (r.seatTypeId == tid) := by
  unfold expiredLockP at h
  cases hs : r.status with
  | booked => simp [hs]
  | locked =>
    rw [hs] at h
    simp only [beq_self_eq_true, Bool.true_and] at h
    have hn : ¬(r.expiresAt ≤ now) := of_decide_eq_false h
    have hlt : now < r.expiresAt := by omega
    simp [hs, hlt]

/-- Invariant A holds *exactly* (live-row form) right after the sweeper. -/
theorem cleanup_exact (s : Sys) (now : Nat) (hcons : AvailConservation s.db) :
    ∀ st ∈ (cleanupExpiredSeatLocks s now).2.db.seatTypes,
      st.available +
        (liveRowCount (cleanupExpiredSeatLocks s now).2.db.seats st.id now : Int) =
        st.quantity := by
  have hpres := cleanup_preserves_avail s now hcons
  unfold AvailConservation typeRowCount at hpres
  intro st hst
  have hcnt : liveRowCount (cleanupExpiredSeatLocks s now).2.db.seats st.id now =
      (cleanupExpiredSeatLocks s now).2.db.seats.countP
        (fun r => r.seatTypeId == st.id) := by
    unfold liveRowCount
    exact List.countP_congr (fun r hr => by
      rw [live_eq_type_of_not_expired r st.id now (cleanup_no_expired s now r hr)])
  rw [hcnt]
  exact hpres st hst

/-- `markIdemFailed` touches only the idempotency table. -/
theorem markIdemFailed_seatTypes (db : DB) (k : Option String) (b : Nat) :
    (markIdemFailed db k b).seatTypes = db.seatTypes := by
  unfold markIdemFailed
  cases k <;> rfl

/-- `markIdemFailed` touches only the idempotency table. -/
theorem markIdemFailed_seats (db : DB) (k : Option String) (b : Nat) :
    (markIdemFailed db k b).seats = db.seats := by
  unfold markIdemFailed
  cases k <;> rfl

/-- Invariant A only reads the seat-type and seat tables. -/
theorem availConservation_transfer (db db' : DB) (ht : db'.seatTypes = db.seatTypes)
    (hs : db'.seats = db.seats) (h : AvailConservation db) : AvailConservation db' := by
  unfold AvailConservation typeRowCount at h ⊢
  rw [ht, hs]
  exact h

/-- The cancellation transaction preserves Invariant A: it deletes the linked
still-locked rows and refunds their per-type counts clamped by `LEAST`. -/
theorem cancelBookingTx_preserves_avail (s : Sys) (bookingId userId : Nat)
    (reason idemKey : Option String) (now : Nat)
    (hcons : AvailConservation s.db) :
    AvailConservation
      (cancelBooking.cancelBookingTx s bookingId userId reason idemKey now).2.db := by
  unfold cancelBooking.cancelBookingTx
  dsimp only
  split
  · exact availConservation_transfer _ _ (markIdemFailed_seatTypes _ _ _)
      (markIdemFailed_seats _ _ _) hcons
  · split
    · exact availConservation_transfer _ _ (markIdemFailed_seatTypes _ _ _)
        (markIdemFailed_seats _ _ _) hcons
    · split
      · exact availConservation_transfer _ _ (markIdemFailed_seatTypes _ _ _)
          (markIdemFailed_seats _ _ _) hcons
      · split
        · exact availConservation_transfer _ _ (markIdemFailed_seatTypes _ _ _)
            (markIdemFailed_seats _ _ _) hcons
        · split
          · exact availConservation_transfer _ _ rfl rfl hcons
          · unfold AvailConservation typeRowCount at hcons ⊢
            exact restoreAvailability_preserves s.db.seatTypes s.db.seats _ hcons

/-- `cancelBooking` preserves Invariant A on every path. -/
theorem cancelBooking_preserves_avail (s : Sys) (bookingId userId : Nat)
    (reason idemKey : Option String) (now : Nat)
    (hcons : AvailConservation s.db) :
    AvailConservation (cancelBooking s bookingId userId reason idemKey now).2.db := by
  unfold cancelBooking
  dsimp only
  split
  · split
    · exact hcons
    · split
      · exact hcons
      · exact cancelBookingTx_preserves_avail s bookingId userId reason idemKey now hcons
  · exact cancelBookingTx_preserves_avail s bookingId userId reason idemKey now hcons

/-! ## Claim C2 — availability conservation -/

/-- CLAIM C2: Invariant A — for every seat type,
`available_quantity + count(rows of the type) = quantity` — is preserved by
Acquire (which decrements under an `available_quantity > 0` guard in the same
transaction that creates the row, and compensates exactly on its failure
paths), by Cancel and by the Expiry Sweeper (which delete rows and refund the
deleted counts clamped by `LEAST` to `quantity`); and right after the sweeper
runs the equation holds exactly in live-row form, because no expired lock
survives the sweep.  Hypotheses: Invariant A held before, plus the primary-key
facts the schema guarantees (unique seat keys, unique seat-type ids). -/
theorem availability_conservation (s : Sys)
    (eventId seatTypeId userId : Nat) (seatLabel : String) (now newId : Nat)
    (bookingId cUserId : Nat) (reason idemKey : Option String)
    (hkey : SeatKeyUnique s.db.seats) (hnodup : TypeIdsNodup s.db)
    (hcons : AvailConservation s.db) :
    AvailConservation (lockSeat s eventId seatTypeId userId seatLabel now newId).2.db ∧
    AvailConservation (cancelBooking s bookingId cUserId reason idemKey now).2.db ∧
    AvailConservation (cleanupExpiredSeatLocks s now).2.db ∧
    (∀ st ∈ (cleanupExpiredSeatLocks s now).2.db.seatTypes,
      st.available +
        (liveRowCount (cleanupExpiredSeatLocks s now).2.db.seats st.id now : Int) =
        st.quantity) :=
  ⟨lockSeat_preserves_avail s eventId seatTypeId userId seatLabel now newId hkey hnodup hcons,
   cancelBooking_preserves_avail s bookingId cUserId reason idemKey now hcons,
   cleanup_preserves_avail s now hcons,
   cleanup_exact s now hcons⟩

/-- Witness for C2 on `sweepState` at `now = 100` (a fresh lock on `V3`, a
cancellation of a nonexistent booking, and the sweep of the expired `V2`
lock). -/
theorem availability_conservation_witness :
    AvailConservation (lockSeat sweepState 1 2 9 "V3" 100 50).2.db ∧
    AvailConservation (cancelBooking sweepState 1 7 none none 100).2.db ∧
    AvailConservation (cleanupExpiredSeatLocks sweepState 100).2.db ∧
    (∀ st ∈ (cleanupExpiredSeatLocks sweepState 100).2.db.seatTypes,
      st.available +
        (liveRowCount (cleanupExpiredSeatLocks sweepState 100).2.db.seats st.id 100 : Int) =
        st.quantity) :=
  availability_conservation sweepState 1 2 9 "V3" 100 50 1 7 none none
    (by decide) (by decide) (by decide)

end Nexus
